import Mathlib

/-!
Shallow embedding of the two browser 3D viewers of this repository
(`src/3D_WEB_VIEW/main.js` satellite viewer, `src/scripts/objects.js` and
`src/unnamed/*` monster/rings viewer), restricted to the state that the
verified claims are about.  The third-party rendering library (three.js) and
the DOM are consumed as opaque services by the code; where the code reads a
library-computed value (a bounding-box center, a raycast result, `Math.sin`)
that value enters the embedding as a field or parameter.  JavaScript numbers
carry exact decimal values through these code paths (they are stored and
copied, never rounded), so they are modelled as `ℚ`; the animation loop uses
real trigonometry and is modelled over `ℝ`.
-/

namespace SatViewer

/-! ## JS character classes and regex helpers (`formatPartName`, main.js 3388-3452)

`formatPartName` applies a fixed sequence of case-insensitive, word-boundary
anchored regex replacements.  The helpers below implement exactly the regex
constructs that appear there: `[_-]`, `\s+`, `trim`, `\bword\b`,
`\bw1\s+w2\b` and `\bexhaust\s*\d+\s*.*$`, with ECMAScript semantics for
`\s` (Unicode white space plus line terminators), `\w` (ASCII word chars),
`\d`, `.` (any char except line terminators) and the `g`/`i` flags. -/

/-- ECMAScript `\s` (and `String.prototype.trim`): WhiteSpace ∪ LineTerminator. -/
def isWsJS (c : Char) : Bool :=
  c = ' ' || c = '\t' || c = '\n' || c = '\r' || c.toNat = 0xB || c.toNat = 0xC ||
  c.toNat = 0xA0 || c.toNat = 0x1680 || (0x2000 ≤ c.toNat && c.toNat ≤ 0x200A) ||
  c.toNat = 0x2028 || c.toNat = 0x2029 || c.toNat = 0x202F || c.toNat = 0x205F ||
  c.toNat = 0x3000 || c.toNat = 0xFEFF

/-- ECMAScript LineTerminator (what `.` does not match). -/
def isLineTermJS (c : Char) : Bool :=
  c = '\n' || c = '\r' || c.toNat = 0x2028 || c.toNat = 0x2029

/-- ECMAScript `\w` = `[A-Za-z0-9_]` (used by `\b`). -/
def isWordCharJS (c : Char) : Bool :=
  c.isAlphanum || c = '_'

/-- Case-insensitive character comparison for the `i` flag (ASCII letters here). -/
def lowerEqCI (p c : Char) : Bool :=
  p.toLower = c.toLower

/-- `name.replace(/[_-]/g, ' ')`. -/
def replaceUnderscoreHyphen (l : List Char) : List Char :=
  l.map (fun c => if c = '_' || c = '-' then ' ' else c)

/-- `formatted.replace(/\s+/g, ' ')` as a one-pass scan: the first character
of a whitespace run becomes a space, the rest of the run is dropped. -/
def collapseWsGo (inWs : Bool) : List Char → List Char
  | [] => []
  | c :: rest =>
    if isWsJS c then
      if inWs then collapseWsGo true rest else ' ' :: collapseWsGo true rest
    else c :: collapseWsGo false rest

/-- `formatted.replace(/\s+/g, ' ')`: each maximal whitespace run becomes one space. -/
def collapseWsJS (l : List Char) : List Char :=
  collapseWsGo false l

/-- `String.prototype.trim`. -/
def trimJS (l : List Char) : List Char :=
  ((l.dropWhile isWsJS).reverse.dropWhile isWsJS).reverse

/-- Case-insensitive literal match of `pat` at the head of `s`; returns the rest. -/
def stripCI : List Char → List Char → Option (List Char)
  | [], s => some s
  | _ :: _, [] => none
  | p :: ps, c :: cs => if lowerEqCI p c then stripCI ps cs else none

/-- `\b` on the left of a pattern starting with a word char: start of input or
a non-word previous char. -/
def bdryPrev (prev : Option Char) : Bool :=
  match prev with
  | none => true
  | some c => !isWordCharJS c

/-- `\b` on the right of a pattern ending with a word char: end of input or a
non-word next char. -/
def bdryNext (s : List Char) : Bool :=
  match s with
  | [] => true
  | c :: _ => !isWordCharJS c

/-- `/\bw\b/i` anchored at the current position; returns the match length. -/
def matchWord1 (w : List Char) (prev : Option Char) (s : List Char) : Option Nat :=
  if bdryPrev prev then
    match stripCI w s with
    | some rest => if bdryNext rest then some w.length else none
    | none => none
  else none

/-- `/\bw1\s+w2\b/i` anchored at the current position (`w2` starts with a
non-space char, so the greedy `\s+` run is the unique one). -/
def matchWord2 (w1 w2 : List Char) (prev : Option Char) (s : List Char) : Option Nat :=
  if bdryPrev prev then
    match stripCI w1 s with
    | some rest =>
      let ws := rest.takeWhile isWsJS
      if ws.isEmpty then none
      else
        match stripCI w2 (rest.dropWhile isWsJS) with
        | some rest2 => if bdryNext rest2 then some (w1.length + ws.length + w2.length) else none
        | none => none
    | none => none
  else none

/-- Tail condition of `\s*.*$`: the tail splits as a whitespace prefix followed
by a line-terminator-free remainder (the `$` has no `m` flag, `.` does not
match line terminators). -/
def canEndSplit (l : List Char) : Bool :=
  (l.dropWhile isWsJS).all (fun c => !isLineTermJS c)

/-- `/\bexhaust\s*\d+\s*.*$/i` anchored at the current position.  Since `\s`
and `\d` are disjoint, the pattern matches exactly when `exhaust` (after a
word boundary) is followed by a whitespace run, at least one digit, and a
tail that `\s*.*$` accepts; a successful match always extends to the end of
the input. -/
def matchExhaustNum (prev : Option Char) (s : List Char) : Option Nat :=
  if bdryPrev prev then
    match stripCI ("exhaust".data) s with
    | some rest =>
      let rest2 := rest.dropWhile isWsJS
      let ds := rest2.takeWhile (fun c => c.isDigit)
      if ds.isEmpty then none
      else if canEndSplit (rest2.dropWhile (fun c => c.isDigit)) then some s.length else none
    | none => none
  else none

/-- One pass of `String.prototype.replace` with a `g` regex: scan left to
right; on a match emit the replacement and continue after the matched
original characters (`prev` is the last original character consumed, for
`\b`).  The fuel equals the remaining input length; every matcher used here
consumes at least one character. -/
def replaceGo (m : Option Char → List Char → Option Nat) (repl : List Char) :
    Nat → Option Char → List Char → List Char
  | 0, _, s => s
  | _ + 1, _, [] => []
  | fuel + 1, prev, c :: cs =>
    match m prev (c :: cs) with
    | some n =>
      repl ++ replaceGo m repl fuel (((c :: cs).take n).getLast?) ((c :: cs).drop n)
    | none => c :: replaceGo m repl fuel (some c) cs

/-- `String.prototype.replace(regexWithG, repl)`. -/
def replaceG (m : Option Char → List Char → Option Nat) (repl : List Char)
    (s : List Char) : List Char :=
  replaceGo m repl s.length none s

/-- `formatted.split(' ')` (single-space separator; `''.split(' ')` is `['']`). -/
def splitOnSpace : List Char → List (List Char)
  | [] => [[]]
  | c :: rest =>
    if c = ' ' then [] :: splitOnSpace rest
    else
      match splitOnSpace rest with
      | [] => [[c]]
      | w :: ws => (c :: w) :: ws

/-- The suffix words skipped once two words are collected (main.js 3446). -/
def suffixSkipWords : List (List Char) :=
  [("uv").data, ("metal").data, ("texture").data, ("material").data]

/-- The dedup loop of `formatPartName`: `seen` holds lowercased pushed words;
a word is pushed when unseen and either fewer than two words are collected or
it is not one of the suffix words. -/
def dedupGo : List (List Char) → List (List Char) → List (List Char) → List (List Char)
  | [], _, uniq => uniq
  | w :: rest, seen, uniq =>
    let lw := w.map Char.toLower
    if !(seen.contains lw) && (decide (uniq.length < 2) || !(suffixSkipWords.contains lw)) then
      dedupGo rest (lw :: seen) (uniq ++ [w])
    else dedupGo rest seen uniq

/-- `Array.prototype.join(' ')`. -/
def joinSpace : List (List Char) → List Char
  | [] => []
  | [w] => w
  | w :: ws => w ++ ' ' :: joinSpace ws

/-- The replacement chain of `formatPartName` (main.js 3391-3432), in source
order. -/
def formatReplacements (l : List Char) : List Char :=
  let f1 := replaceUnderscoreHyphen l
  let f2 := trimJS (collapseWsJS f1)
  let f3 := replaceG (matchWord1 ("panel").data) (("Solar Arrays").data) f2
  let f4 := replaceG (matchWord2 ("heat").data ("shield").data) (("Crew Module").data) f3
  let f5 := replaceG (matchWord2 ("mid12").data ("white").data) (("Crew Module Adapter").data) f4
  let f6 := replaceG (matchWord2 ("mid02").data ("white").data) (("EUROPEAN SERVICE MODULE").data) f5
  let f7 := replaceG (matchWord2 ("mid17").data ("white").data) (("EUROPEAN SERVICE MODULE").data) f6
  let f8 := replaceG (matchWord2 ("mid").data ("white").data) (("Crew Module Adapter").data) f7
  let f9 := replaceG (matchWord2 ("exhaust01").data ("exhaust").data) (("Exhaust").data) f8
  let f10 := replaceG (matchWord1 ("exhaust02").data) (("Exhaust").data) f9
  let f11 := replaceG (matchWord1 ("exhaust01").data) (("Exhaust").data) f10
  let f12 := replaceG (matchWord2 ("exhaust").data ("metal").data) (("Exhaust").data) f11
  let f13 := replaceG (matchWord2 ("exhaust").data ("uv").data) (("Exhaust").data) f12
  replaceG matchExhaustNum (("Exhaust").data) f13

/-- `formatPartName` (main.js 3388-3452) on the character list: the
replacement chain, then split, dedup and keep the first two words. -/
def formatPartNameL (l : List Char) : List Char :=
  joinSpace ((dedupGo (splitOnSpace (formatReplacements l)) [] []).take 2)

/-- `formatPartName(name)`: the empty string is falsy and returned unchanged. -/
def formatPartName (s : String) : String :=
  if s = "" then s else String.mk (formatPartNameL s.data)

/-- Word counting scan: `inWord` records whether the previous character was a
non-whitespace character. -/
def countWordsGo (inWord : Bool) : List Char → Nat
  | [] => 0
  | c :: rest =>
    if isWsJS c then countWordsGo false rest
    else (if inWord then 0 else 1) + countWordsGo true rest

/-- Number of whitespace-separated words of a character list. -/
def countWords (l : List Char) : Nat :=
  countWordsGo false l

/-- Number of whitespace-separated words of a string. -/
def countWordsStr (s : String) : Nat :=
  countWords s.data

/-! ## The right side panel (`toggleRightPanel`, main.js 889-906) -/

/-- DOM state touched by `toggleRightPanel`: the `right-panel` `collapsed`
class, the toggle button's text and `panel-collapsed` class, the preset
buttons' `hidden` class, and the preset state reset on opening. -/
structure RightPanelState where
  collapsed : Bool
  arrow : String
  toggleCollapsedClass : Bool
  presetButtonsHidden : Bool
  currentPreset : Option String
  presetButtonsActive : Bool
deriving DecidableEq

/-- `toggleRightPanel` (main.js 889-906): flip the `collapsed` class, set the
arrow text, and show/hide the preset buttons; opening also resets the part
preset and clears the preset buttons' `active` class. -/
def toggleRightPanel (s : RightPanelState) : RightPanelState :=
  let isCollapsed := !s.collapsed
  if isCollapsed then
    { s with
      collapsed := isCollapsed
      arrow := "◄"
      toggleCollapsedClass := true
      presetButtonsHidden := false }
  else
    { collapsed := isCollapsed
      arrow := "►"
      toggleCollapsedClass := false
      presetButtonsHidden := true
      currentPreset := none
      presetButtonsActive := false }

/-! ## Scene data model

Meshes, materials and textures as the satellite viewer reads and writes them.
Geometries and textures are identified by their library uuids; a texture's
source URL stands for the `userData.sourceUrl` / `source.data.src` /
`image.src` lookup chain of `serializeSceneData`.  A mesh's `material` is
`none` when the mesh has no material; a single (non-array) material is
normalised to a one-element list, exactly as every function involved does
with `Array.isArray(child.material) ? child.material : [child.material]`. -/

structure Vec3Q where
  x : ℚ
  y : ℚ
  z : ℚ
deriving DecidableEq

structure TextureJS where
  uuid : String
  sourceUrl : Option String
deriving DecidableEq

/-- The three.js material class, observed through `isMeshStandardMaterial` /
`isMeshPhysicalMaterial` flags in `convertMaterials`. -/
inductive MatKind where
  | standard
  | physical
  | basic
  | phong
  | lambert
  | toon
deriving DecidableEq

structure MaterialJS where
  uuid : String
  name : String
  kind : MatKind
  color : Nat
  emissive : Option Nat
  roughness : Option ℚ
  metalness : Option ℚ
  emissiveIntensity : Option ℚ
  opacity : Option ℚ
  transparent : Bool
  map : Option TextureJS
  normalMap : Option TextureJS
  roughnessMap : Option TextureJS
  metalnessMap : Option TextureJS
  aoMap : Option TextureJS
  emissiveMap : Option TextureJS
deriving DecidableEq

/-- A part-metadata record `{ name, description }` (main.js 525-531). -/
structure PartInfo where
  name : String
  description : String
deriving DecidableEq

structure MeshJS where
  uuid : String
  name : String
  position : Vec3Q
  rotation : Vec3Q
  scale : Vec3Q
  visible : Bool
  castShadow : Bool
  geometry : Option String
  material : Option (List MaterialJS)
deriving DecidableEq

/-- A loaded `gltf.scene`: its meshes in traversal order, the root
transform, and the bounding-box center that `new THREE.Box3().setFromObject`
computes from the geometry (the geometry itself is library data, so the
center is carried as a field). -/
structure ModelJS where
  meshes : List MeshJS
  position : Vec3Q
  scale : Vec3Q
  bboxCenter : Vec3Q
deriving DecidableEq

/-- Association-list update with `Map.prototype.set` semantics: replace the
existing binding, else append. -/
def setAssoc : List (String × PartInfo) → String → PartInfo → List (String × PartInfo)
  | [], k, v => [(k, v)]
  | (k', v') :: rest, k, v =>
    if k' = k then (k, v) :: rest else (k', v') :: setAssoc rest k v

/-- `Map.prototype.get`. -/
def lookupAssoc : List (String × PartInfo) → String → Option PartInfo
  | [], _ => none
  | (k, v) :: rest, u => if k = u then some v else lookupAssoc rest u

/-! ## Observable actions

The loader, the settings loader and the drop handler perform externally
visible actions (library disposals, scene membership changes, dialogs, the
network call); the embedding records them as an ordered event list. -/

inductive Event where
  | removeFromScene
  | disposeGeometry (uuid : String)
  | disposeTexture (uuid : String)
  | disposeMaterial (uuid : String)
  | clearPartData
  | closeIndicator
  | buildOutliner
  | showLoading
  | hideLoading
  | addToScene
  | textureLoadRequest (nm : String)
  | consoleError (msg : String)
  | consoleLog (msg : String)
  | alertShown (msg : String)
  | revokeObjectURL
  | fetchPost (url : String)
  | readFile
  | initProjectCall
  | createActionsGUI
  | createFloor
deriving DecidableEq

/-- `a` occurs at a strictly earlier index than `b` in `tr`. -/
def occursBefore (tr : List Event) (a b : Event) : Prop :=
  ∃ i j : Nat, i < j ∧ tr[i]? = some a ∧ tr[j]? = some b

/-! ## Material conversion (`convertMaterials`, main.js 211-230) -/

/-- `convertToStandardMaterial` (main.js 327-385) restricted to the tracked
fields.  JS `||` defaulting: a three.js `Color` object is always truthy, so
`color` is copied when present (all materials here carry one) and a missing
`emissive` becomes `0x000000`; `emissiveIntensity || 1.0` turns `0` into `1`;
`!== undefined` checks become `Option.getD`.  The real code gives the new
material a fresh library uuid and the default empty name; no claim depends
on the material's identity, and render-only flags (`side`, `depthWrite`,
`needsUpdate`, texture filtering) are untracked. -/
def convertToStandardMaterial (m : MaterialJS) : MaterialJS :=
  { uuid := m.uuid
    name := ""
    kind := MatKind.standard
    color := m.color
    emissive := some (match m.emissive with | some e => e | none => 0)
    roughness := some (m.roughness.getD (1 / 2))
    metalness := some (m.metalness.getD 0)
    emissiveIntensity := some (match m.emissiveIntensity with
      | some q => if q = 0 then 1 else q
      | none => 1)
    opacity := some (m.opacity.getD 1)
    transparent := m.transparent
    map := m.map
    normalMap := m.normalMap
    roughnessMap := m.roughnessMap
    metalnessMap := m.metalnessMap
    aoMap := m.aoMap
    emissiveMap := m.emissiveMap }

/-- `optimizeMaterial` (main.js 283-308) mutates only untracked render flags
(`needsUpdate`, `side`, `depthWrite`, texture filtering); on the tracked
fields it is the identity. -/
def optimizeMaterial (m : MaterialJS) : MaterialJS :=
  m

/-- Per-mesh body of `convertMaterials`: standard/physical materials are
optimised in place, every other kind is converted. -/
def convertMaterialsMesh (c : MeshJS) : MeshJS :=
  match c.material with
  | none => c
  | some mats =>
    { c with material := some (mats.map (fun m =>
        if m.kind = MatKind.standard || m.kind = MatKind.physical then optimizeMaterial m
        else convertToStandardMaterial m)) }

/-- `convertMaterials(object)` traverses the model converting every mesh. -/
def convertMaterials (model : ModelJS) : ModelJS :=
  { model with meshes := model.meshes.map convertMaterialsMesh }

/-! ## The satellite load success callback (main.js 495-560, 630-690, 2693-2760)

`loadModel`, `loadModelByPath` and `loadModelFromFile` run the same success
callback: center the model at minus its bounding-box center, scale it to
`(40, 40, 40)`, convert materials, request the solar-panel textures, tag
named meshes with part metadata, and add the model to the scene. -/

def panelMaterialNames : List String :=
  [("Panel_01-Solar_Panel_Cell_Material_UV"),
   ("Panel_02-Solar_Panel_Cell_Material_UV"),
   ("Panel_03-Solar_Panel_Cell_Material_UV"),
   ("Panel_04-Solar_Panel_Cell_Material_UV")]

/-- `applySolarPanelTexture` (main.js 231-282): asynchronous texture-load
requests for the matching material names (the texture callback itself only
swaps the material's `map`). -/
def solarTextureRequests (model : ModelJS) : List Event :=
  model.meshes.flatMap (fun c =>
    match c.material with
    | some mats => mats.filterMap (fun m =>
        if m.name ≠ "" && panelMaterialNames.contains m.name then
          some (Event.textureLoadRequest m.name)
        else none)
    | none => [])

/-- `String.prototype.trim` on strings. -/
def jsTrimStr (s : String) : String :=
  String.mk (trimJS s.data)

/-- One step of the part-tagging traversal (main.js 521-534): a mesh whose
name is truthy and non-blank gets `{ name, description }` under its uuid. -/
def tagPartInfoStep (pd : List (String × PartInfo)) (c : MeshJS) : List (String × PartInfo) :=
  if c.name ≠ "" && jsTrimStr c.name ≠ "" then
    let fn := formatPartName c.name
    setAssoc pd c.uuid { name := fn, description := "Part of the " ++ fn ++ " component." }
  else pd

/-- The whole part-tagging traversal. -/
def tagParts (pd : List (String × PartInfo)) (model : ModelJS) : List (String × PartInfo) :=
  model.meshes.foldl tagPartInfoStep pd

/-- The model transformation done by the success callback: center, scale,
convert materials. -/
def loadSuccessModel (gltf : ModelJS) : ModelJS :=
  let centered : ModelJS :=
    { gltf with
      position := ⟨-gltf.bboxCenter.x, -gltf.bboxCenter.y, -gltf.bboxCenter.z⟩
      scale := ⟨40, 40, 40⟩ }
  convertMaterials centered

/-- Viewer state touched by the loading paths. -/
structure LoadState where
  satellite : Option ModelJS
  partData : List (String × PartInfo)
  loadingVisible : Bool
deriving DecidableEq

/-- The success callback: install the processed model, tag parts, add to the
scene, rebuild the outliner, and hide the loading indicator (via the 300 ms
timeout). -/
def loadSuccess (gltf : ModelJS) (st : LoadState) : LoadState × List Event :=
  let m := loadSuccessModel gltf
  let pd := tagParts st.partData m
  ({ st with satellite := some m, partData := pd, loadingVisible := false },
   solarTextureRequests m ++ [Event.addToScene, Event.buildOutliner, Event.hideLoading])

/-! ## Disposal of the previous model (main.js 580-613 and 2643-2673) -/

/-- `if (mat.x) mat.x.dispose()` for one texture slot. -/
def disposeTexEvent : Option TextureJS → List Event
  | some t => [Event.disposeTexture t.uuid]
  | none => []

/-- Texture disposals and the final material disposal for one material, in
source order: `map`, `normalMap`, `roughnessMap`, `metalnessMap`, `aoMap`,
`emissiveMap`, then `material.dispose()`. -/
def disposeMaterialEvents (m : MaterialJS) : List Event :=
  disposeTexEvent m.map ++ disposeTexEvent m.normalMap ++ disposeTexEvent m.roughnessMap ++
  disposeTexEvent m.metalnessMap ++ disposeTexEvent m.aoMap ++ disposeTexEvent m.emissiveMap ++
  [Event.disposeMaterial m.uuid]

/-- Disposal for one mesh: geometry first, then each material with its
texture maps (array and single material produce the same sequence). -/
def disposeMeshEvents (c : MeshJS) : List Event :=
  (match c.geometry with | some g => [Event.disposeGeometry g] | none => []) ++
  (match c.material with | some mats => mats.flatMap disposeMaterialEvents | none => [])

/-- `if (this.satellite) { scene.remove; traverse dispose; satellite = null }`. -/
def removePreviousModelEvents : Option ModelJS → List Event
  | some prev => Event.removeFromScene :: prev.meshes.flatMap disposeMeshEvents
  | none => []

/-- The disposal contract of the claims: every geometry, material and texture
map of the previous model is disposed, and the model removed from the scene,
strictly before the new model is added. -/
def allDisposedBeforeAdd (tr : List Event) (prev : ModelJS) : Prop :=
  occursBefore tr Event.removeFromScene Event.addToScene ∧
  ∀ c ∈ prev.meshes,
    (∀ g, c.geometry = some g →
      occursBefore tr (Event.disposeGeometry g) Event.addToScene) ∧
    ∀ mats, c.material = some mats → ∀ m ∈ mats,
      occursBefore tr (Event.disposeMaterial m.uuid) Event.addToScene ∧
      (∀ t, m.map = some t →
        occursBefore tr (Event.disposeTexture t.uuid) Event.addToScene) ∧
      (∀ t, m.normalMap = some t →
        occursBefore tr (Event.disposeTexture t.uuid) Event.addToScene) ∧
      (∀ t, m.roughnessMap = some t →
        occursBefore tr (Event.disposeTexture t.uuid) Event.addToScene) ∧
      (∀ t, m.metalnessMap = some t →
        occursBefore tr (Event.disposeTexture t.uuid) Event.addToScene) ∧
      (∀ t, m.aoMap = some t →
        occursBefore tr (Event.disposeTexture t.uuid) Event.addToScene) ∧
      (∀ t, m.emissiveMap = some t →
        occursBefore tr (Event.disposeTexture t.uuid) Event.addToScene)

/-- Whether the asynchronous load succeeds (with the parsed scene) or the
error callback fires. -/
inductive LoadOutcome where
  | success (gltf : ModelJS)
  | failure (err : String)

/-- `loadModelFromFile(file)` (main.js 2641-2775) from the call through the
resolution of the load: dispose and remove the previous model, clear the
part data, close indicators, clear the outliner, show the loading indicator,
then run the success or error callback of `loader.load`. -/
def loadModelFromFileRun (st : LoadState) (outcome : LoadOutcome) : LoadState × List Event :=
  let ev0 := removePreviousModelEvents st.satellite
  let st1 : LoadState :=
    match st.satellite with
    | some _ => { st with satellite := none, partData := [], loadingVisible := true }
    | none => { st with partData := [], loadingVisible := true }
  let ev1 := ev0 ++ [Event.clearPartData, Event.closeIndicator, Event.buildOutliner,
    Event.showLoading]
  match outcome with
  | LoadOutcome.success gltf =>
    let r := loadSuccess gltf st1
    (r.1, ev1 ++ r.2 ++ [Event.revokeObjectURL])
  | LoadOutcome.failure err =>
    ({ st1 with loadingVisible := false },
     ev1 ++ [Event.consoleError ("Error loading GLTF model: " ++ err), Event.hideLoading,
       Event.alertShown ("Failed to load 3D model. Please check the console for details."),
       Event.revokeObjectURL])

/-- `loadModelByPath(modelPath)` (main.js 578-707): same flow, without the
object-URL cleanup. -/
def loadModelByPathRun (st : LoadState) (outcome : LoadOutcome) : LoadState × List Event :=
  let ev0 := removePreviousModelEvents st.satellite
  let st1 : LoadState :=
    match st.satellite with
    | some _ => { st with satellite := none, partData := [], loadingVisible := true }
    | none => { st with partData := [], loadingVisible := true }
  let ev1 := ev0 ++ [Event.clearPartData, Event.closeIndicator, Event.buildOutliner,
    Event.showLoading]
  match outcome with
  | LoadOutcome.success gltf =>
    let r := loadSuccess gltf st1
    (r.1, ev1 ++ r.2)
  | LoadOutcome.failure err =>
    ({ st1 with loadingVisible := false },
     ev1 ++ [Event.consoleError ("Error loading GLTF model: " ++ err), Event.hideLoading,
       Event.alertShown ("Failed to load 3D model. Please check the console for details.")])

/-! ## The monster/rings loader (`load3dModel`, src/scripts/objects.js 4-30)

Its success callback adds the model to the scene as-is, optionally builds the
animation GUI, optionally sets `castShadow` on every mesh, and optionally
creates the floor.  It performs no centering, no scaling, no material
conversion and no part tagging. -/
def load3dModelCallback (gltf : ModelJS) (isAnimate needShadow needFloor : Bool) :
    ModelJS × List Event :=
  let m :=
    if needShadow then
      { gltf with meshes := gltf.meshes.map (fun c => { c with castShadow := true }) }
    else gltf
  (m, [Event.addToScene] ++ (if isAnimate then [Event.createActionsGUI] else []) ++
    (if needFloor then [Event.createFloor] else []))

/-! ## Hex color strings

`serializeSceneData` stores colors as `'#' + color.getHexString()` (six
lowercase hex digits); `deserializeSceneData` restores them with
`color.setHex(str.replace('#', '0x'))`, where JavaScript number coercion
parses the `0x…` literal. -/

/-- One lowercase hex digit. -/
def hexDigitChar (d : Nat) : Char :=
  if d < 10 then Char.ofNat ('0'.toNat + d) else Char.ofNat ('a'.toNat + (d - 10))

/-- `Color.getHexString()`: six lowercase hex digits, big-endian. -/
def toHexString6 (n : Nat) : String :=
  String.mk [hexDigitChar (n / 16 ^ 5 % 16), hexDigitChar (n / 16 ^ 4 % 16),
    hexDigitChar (n / 16 ^ 3 % 16), hexDigitChar (n / 16 ^ 2 % 16),
    hexDigitChar (n / 16 % 16), hexDigitChar (n % 16)]

def hexDigitVal (c : Char) : Option Nat :=
  if '0' ≤ c ∧ c ≤ '9' then some (c.toNat - '0'.toNat)
  else if 'a' ≤ c ∧ c ≤ 'f' then some (c.toNat - 'a'.toNat + 10)
  else if 'A' ≤ c ∧ c ≤ 'F' then some (c.toNat - 'A'.toNat + 10)
  else none

def parseHexDigits : List Char → Nat → Option Nat
  | [], acc => some acc
  | c :: cs, acc =>
    match hexDigitVal c with
    | some d => parseHexDigits cs (acc * 16 + d)
    | none => none

/-- JavaScript `Number` coercion of a `0x…` hex literal string (`none` for a
malformed literal, which would be `NaN`). -/
def jsNumberHex (l : List Char) : Option Nat :=
  match l with
  | '0' :: 'x' :: rest => if rest.isEmpty then none else parseHexDigits rest 0
  | _ => none

/-- `str.replace('#', '0x')`: replace the first `#`. -/
def replaceFirstHash : List Char → List Char
  | [] => []
  | c :: cs => if c = '#' then '0' :: 'x' :: cs else c :: replaceFirstHash cs

/-- The value `Color.setHex` receives from
`materialData.color.replace('#', '0x')`.  A malformed literal would be `NaN`
(modelled `0`); the serializer never produces one. -/
def jsSetHexArg (s : String) : Nat :=
  (jsNumberHex (replaceFirstHash s.data)).getD 0

/-! ## Settings snapshot scene data (`serializeSceneData`, main.js 1229-1331) -/

/-- A saved texture entry: the source URL when one was found, otherwise the
JSON literal `true` marking that a texture exists. -/
inductive TexSaved where
  | url (s : String)
  | present
deriving DecidableEq

structure MaterialData where
  index : Nat
  name : String
  uuid : String
  color : String
  roughness : Option ℚ
  metalness : Option ℚ
  emissive : Option String
  emissiveIntensity : Option ℚ
  opacity : Option ℚ
  transparent : Bool
  textures : List (String × TexSaved)
deriving DecidableEq

structure ObjectData where
  uuid : String
  name : String
  position : Option Vec3Q
  rotation : Option Vec3Q
  scale : Option Vec3Q
  visible : Option Bool
  materials : List MaterialData
deriving DecidableEq

structure SceneData where
  objects : List ObjectData
  partData : List (String × PartInfo)
deriving DecidableEq

/-- The `materialData.textures[mapName]` entry for one map slot. -/
def textureEntry (mapName : String) (t : Option TextureJS) : List (String × TexSaved) :=
  match t with
  | some tex =>
    [(mapName, match tex.sourceUrl with | some u => TexSaved.url u | none => TexSaved.present)]
  | none => []

/-- One `materialData` record (main.js 1268-1325). -/
def serializeMaterial (i : Nat) (m : MaterialJS) : MaterialData :=
  { index := i
    name := m.name
    uuid := m.uuid
    color := "#" ++ toHexString6 m.color
    roughness := m.roughness
    metalness := m.metalness
    emissive := m.emissive.map (fun e => "#" ++ toHexString6 e)
    emissiveIntensity := m.emissiveIntensity
    opacity := m.opacity
    transparent := m.transparent
    textures := textureEntry ("map") m.map ++ textureEntry ("normalMap") m.normalMap ++
      textureEntry ("roughnessMap") m.roughnessMap ++
      textureEntry ("metalnessMap") m.metalnessMap ++ textureEntry ("aoMap") m.aoMap ++
      textureEntry ("emissiveMap") m.emissiveMap }

/-- One `objectData` record (main.js 1246-1266); the `none` material branch is
unreachable because the caller filters on `child.material`. -/
def serializeObject (c : MeshJS) : ObjectData :=
  { uuid := c.uuid
    name := c.name
    position := some c.position
    rotation := some c.rotation
    scale := some c.scale
    visible := some c.visible
    materials :=
      match c.material with
      | some mats => mats.enum.map (fun p => serializeMaterial p.1 p.2)
      | none => [] }

/-- `serializeSceneData()` (main.js 1229-1331): `null` without a model,
otherwise the part-data map and one record per mesh with a truthy material. -/
def serializeSceneData (partData : List (String × PartInfo)) (satellite : Option ModelJS) :
    Option SceneData :=
  match satellite with
  | none => none
  | some model =>
    some { objects := model.meshes.filterMap (fun c =>
             if c.material.isSome then some (serializeObject c) else none)
           partData := partData }

/-! ## Restoring scene data (`deserializeSceneData`, main.js 1497-1601) -/

/-- `if (materialData.color) material.color.setHex(...)` (truthy = non-empty). -/
def restoreColor (md : MaterialData) (m : MaterialJS) : MaterialJS :=
  if md.color ≠ "" then { m with color := jsSetHexArg md.color } else m

def restoreRoughness (md : MaterialData) (m : MaterialJS) : MaterialJS :=
  match md.roughness with
  | some r => { m with roughness := some r }
  | none => m

def restoreMetalness (md : MaterialData) (m : MaterialJS) : MaterialJS :=
  match md.metalness with
  | some v => { m with metalness := some v }
  | none => m

/-- `emissive.setHex` mutates the existing emissive color; a material without
one would throw, which the serializer's output never triggers. -/
def restoreEmissive (md : MaterialData) (m : MaterialJS) : MaterialJS :=
  match md.emissive with
  | some es =>
    if es ≠ "" then { m with emissive := m.emissive.map (fun _ => jsSetHexArg es) } else m
  | none => m

def restoreEmissiveIntensity (md : MaterialData) (m : MaterialJS) : MaterialJS :=
  match md.emissiveIntensity with
  | some v => { m with emissiveIntensity := some v }
  | none => m

/-- Restoring `opacity` also recomputes `transparent`. -/
def restoreOpacity (md : MaterialData) (m : MaterialJS) : MaterialJS :=
  match md.opacity with
  | some o => { m with opacity := some o, transparent := md.transparent || decide (o < 1) }
  | none => m

/-- Restore one material's properties (main.js 1541-1566), in source order.
The texture block only issues asynchronous texture loads and touches none of
these fields. -/
def applyMaterialData (md : MaterialData) (m : MaterialJS) : MaterialJS :=
  restoreOpacity md (restoreEmissiveIntensity md (restoreEmissive md
    (restoreMetalness md (restoreRoughness md (restoreColor md m)))))

/-- `objectData.materials.forEach`: each record updates the material at its
`index`, skipping out-of-range indices. -/
def applyMaterialList (mds : List MaterialData) (mats : List MaterialJS) : List MaterialJS :=
  mds.foldl (fun acc md =>
    match acc[md.index]? with
    | some mat => acc.set md.index (applyMaterialData md mat)
    | none => acc) mats

def restorePosition (od : ObjectData) (c : MeshJS) : MeshJS :=
  match od.position with
  | some p => { c with position := p }
  | none => c

def restoreRotation (od : ObjectData) (c : MeshJS) : MeshJS :=
  match od.rotation with
  | some p => { c with rotation := p }
  | none => c

def restoreScale (od : ObjectData) (c : MeshJS) : MeshJS :=
  match od.scale with
  | some p => { c with scale := p }
  | none => c

def restoreVisible (od : ObjectData) (c : MeshJS) : MeshJS :=
  match od.visible with
  | some v => { c with visible := v }
  | none => c

def restoreMaterials (od : ObjectData) (c : MeshJS) : MeshJS :=
  match c.material with
  | some mats => { c with material := some (applyMaterialList od.materials mats) }
  | none => c

/-- Restore one object's transform, visibility and materials
(main.js 1522-1540), in source order. -/
def applyObjectData (od : ObjectData) (c : MeshJS) : MeshJS :=
  restoreMaterials od (restoreVisible od (restoreScale od (restoreRotation od
    (restorePosition od c))))

/-- The uuid → mesh `objectMap` built before the restore loop: `Map.set` in
traversal order, so a uuid resolves to its last occurrence. -/
def lastIdxWithUuid : List MeshJS → String → Option Nat
  | [], _ => none
  | c :: rest, u =>
    match lastIdxWithUuid rest u with
    | some i => some (i + 1)
    | none => if c.uuid = u then some 0 else none

/-- One `sceneData.objects.forEach` iteration (main.js 1517-1521): look the
uuid up in the `objectMap` (built once from the model), skip when the mesh is
missing or has no material, otherwise restore onto it. -/
def deserializeObjectsStep (model : ModelJS) (acc : List MeshJS) (od : ObjectData) :
    List MeshJS :=
  match lastIdxWithUuid model.meshes od.uuid with
  | some i =>
    match acc[i]? with
    | some c => if c.material.isSome then acc.set i (applyObjectData od c) else acc
    | none => acc
  | none => acc

/-- `deserializeSceneData(sceneData)` (main.js 1497-1601): nothing without a
model; otherwise merge the saved part data into the part map, then restore
each saved object onto the mesh the `objectMap` resolves its uuid to. -/
def deserializeSceneData (sd : SceneData) (partData : List (String × PartInfo))
    (satellite : Option ModelJS) : List (String × PartInfo) × Option ModelJS :=
  match satellite with
  | none => (partData, none)
  | some model =>
    let pd := sd.partData.foldl (fun acc kv => setAssoc acc kv.1 kv.2) partData
    let meshes := sd.objects.foldl (deserializeObjectsStep model) model.meshes
    (pd, some { model with meshes := meshes })

/-! ## Field agreement for the round trip -/

/-- The material fields the settings snapshot round-trips. -/
def matFieldsEq (a b : MaterialJS) : Prop :=
  a.color = b.color ∧ a.roughness = b.roughness ∧ a.metalness = b.metalness ∧
  a.emissive = b.emissive ∧ a.emissiveIntensity = b.emissiveIntensity ∧
  a.opacity = b.opacity

/-- Material lists agree position-wise on the round-tripped fields. -/
def matsOptEq : Option (List MaterialJS) → Option (List MaterialJS) → Prop
  | none, none => True
  | some a, some b =>
    a.length = b.length ∧ ∀ i (h : i < a.length) (h' : i < b.length), matFieldsEq a[i] b[i]
  | _, _ => False

/-- The mesh fields the settings snapshot round-trips. -/
def meshFieldsEq (a b : MeshJS) : Prop :=
  a.position = b.position ∧ a.rotation = b.rotation ∧ a.scale = b.scale ∧
  a.visible = b.visible ∧ matsOptEq a.material b.material

/-- Colors are 24-bit, as three.js `Color` values are. -/
def matBounded (m : MaterialJS) : Prop :=
  m.color < 16 ^ 6 ∧ (match m.emissive with | some e => e < 16 ^ 6 | none => True)

/-! ## Lighting controls and settings (main.js 1071-1496, 1723-1938)

The DOM controls store numbers; assigning a number to `input.value` and
reading it back through `parseFloat` is exact for the JSON numbers involved,
so control values are carried as `ℚ` (the `toFixed(1)` readout labels next to
the sliders are display-only and untracked).  Each `dispatchEvent` in
`applySettings` runs the listener that `setupLightingControls` installed on
that control; the listeners are modelled one function each. -/

structure LightQ where
  intensity : ℚ
  colorHex : Nat
  px : ℚ
  py : ℚ
  pz : ℚ
deriving DecidableEq

/-- The control values and viewer fields the settings listeners touch. -/
structure UIState where
  backgroundTypeVal : String
  backgroundColorVal : String
  backgroundIntensityVal : ℚ
  ambientIntensityVal : ℚ
  ambientColorVal : String
  directionalIntensityVal : ℚ
  directionalColorVal : String
  directionalXVal : ℚ
  directionalYVal : ℚ
  directionalZVal : ℚ
  fillIntensityVal : ℚ
  fillColorVal : String
  pointIntensityVal : ℚ
  pointColorVal : String
  environmentTypeVal : String
  envIntensityVal : ℚ
  backgroundIntensity : ℚ
  currentEnvIntensity : ℚ
  starFieldVisible : Bool
  sceneEnvironmentSet : Bool
  ambientLight : Option LightQ
  directionalLight : Option LightQ
  fillLight : Option LightQ
  pointLight : Option LightQ
  loadPanelCollapsed : Bool
  lightingPanelCollapsed : Bool
  outlinerPanelCollapsed : Bool
  rightPanel : RightPanelState
deriving DecidableEq

/-- `applyBackgroundType` (main.js 1735-1747): `color` hides the star field,
anything else shows it (scene background and control visibility are
untracked display state). -/
def applyBackgroundType (ty : String) (st : UIState) : UIState :=
  if ty = "color" then { st with starFieldVisible := false }
  else { st with starFieldVisible := true }

/-- `background-color` input listener (main.js 1758-1762): repaints the scene
background only, which is untracked. -/
def onBackgroundColorInput (st : UIState) : UIState :=
  st

/-- `background-intensity` input listener (main.js 1765-1776). -/
def onBackgroundIntensityInput (st : UIState) : UIState :=
  { st with backgroundIntensity := st.backgroundIntensityVal }

/-- `applyEnvironmentType` (main.js 1794-1802): `hdri` (re)applies an
environment map, anything else clears `scene.environment`. -/
def applyEnvironmentType (ty : String) (st : UIState) : UIState :=
  if ty = "hdri" then { st with sceneEnvironmentSet := true }
  else { st with sceneEnvironmentSet := false }

/-- `ambient-intensity` input listener (main.js 1826-1830). -/
def onAmbientIntensityInput (st : UIState) : UIState :=
  { st with ambientLight := st.ambientLight.map (fun l =>
      { l with intensity := st.ambientIntensityVal }) }

/-- `ambient-color` input listener (main.js 1832-1834). -/
def onAmbientColorInput (st : UIState) : UIState :=
  { st with ambientLight := st.ambientLight.map (fun l =>
      { l with colorHex := jsSetHexArg st.ambientColorVal }) }

def onDirectionalIntensityInput (st : UIState) : UIState :=
  { st with directionalLight := st.directionalLight.map (fun l =>
      { l with intensity := st.directionalIntensityVal }) }

def onDirectionalColorInput (st : UIState) : UIState :=
  { st with directionalLight := st.directionalLight.map (fun l =>
      { l with colorHex := jsSetHexArg st.directionalColorVal }) }

def onDirectionalXInput (st : UIState) : UIState :=
  { st with directionalLight := st.directionalLight.map (fun l =>
      { l with px := st.directionalXVal }) }

def onDirectionalYInput (st : UIState) : UIState :=
  { st with directionalLight := st.directionalLight.map (fun l =>
      { l with py := st.directionalYVal }) }

def onDirectionalZInput (st : UIState) : UIState :=
  { st with directionalLight := st.directionalLight.map (fun l =>
      { l with pz := st.directionalZVal }) }

def onFillIntensityInput (st : UIState) : UIState :=
  { st with fillLight := st.fillLight.map (fun l =>
      { l with intensity := st.fillIntensityVal }) }

def onFillColorInput (st : UIState) : UIState :=
  { st with fillLight := st.fillLight.map (fun l =>
      { l with colorHex := jsSetHexArg st.fillColorVal }) }

def onPointIntensityInput (st : UIState) : UIState :=
  { st with pointLight := st.pointLight.map (fun l =>
      { l with intensity := st.pointIntensityVal }) }

def onPointColorInput (st : UIState) : UIState :=
  { st with pointLight := st.pointLight.map (fun l =>
      { l with colorHex := jsSetHexArg st.pointColorVal }) }

/-- `env-intensity` input listener / `setEnvironmentIntensity`
(main.js 1926-1961): records the value (material `envMapIntensity` updates
are untracked). -/
def onEnvIntensityInput (st : UIState) : UIState :=
  { st with currentEnvIntensity := st.envIntensityVal }

/-- A settings JSON document; absent keys are `none`.  JavaScript truthiness
checks on string fields also reject the empty string. -/
structure SettingsJS where
  backgroundType : Option String
  backgroundColor : Option String
  backgroundIntensity : Option ℚ
  ambientIntensity : Option ℚ
  ambientColor : Option String
  directionalIntensity : Option ℚ
  directionalColor : Option String
  directionalX : Option ℚ
  directionalY : Option ℚ
  directionalZ : Option ℚ
  fillIntensity : Option ℚ
  fillColor : Option String
  pointIntensity : Option ℚ
  pointColor : Option String
  environmentType : Option String
  envIntensity : Option ℚ
  sceneData : Option SceneData
  loadPanelCollapsed : Option Bool
  lightingPanelCollapsed : Option Bool
  outlinerPanelCollapsed : Option Bool
  rightPanelCollapsed : Option Bool
deriving DecidableEq

/-- A truthy string field. -/
def truthyStr : Option String → Option String
  | some s => if s = "" then none else some s
  | none => none

/-- `if (settings.backgroundType) { set control value; dispatch change }`. -/
def setBackgroundType (s : SettingsJS) (st : UIState) : UIState :=
  match truthyStr s.backgroundType with
  | some v => applyBackgroundType v { st with backgroundTypeVal := v }
  | none => st

def setBackgroundColor (s : SettingsJS) (st : UIState) : UIState :=
  match truthyStr s.backgroundColor with
  | some v => onBackgroundColorInput { st with backgroundColorVal := v }
  | none => st

def setBackgroundIntensity (s : SettingsJS) (st : UIState) : UIState :=
  match s.backgroundIntensity with
  | some v => onBackgroundIntensityInput { st with backgroundIntensityVal := v }
  | none => st

def setAmbientIntensity (s : SettingsJS) (st : UIState) : UIState :=
  match s.ambientIntensity with
  | some v => onAmbientIntensityInput { st with ambientIntensityVal := v }
  | none => st

def setAmbientColor (s : SettingsJS) (st : UIState) : UIState :=
  match truthyStr s.ambientColor with
  | some v => onAmbientColorInput { st with ambientColorVal := v }
  | none => st

def setDirectionalIntensity (s : SettingsJS) (st : UIState) : UIState :=
  match s.directionalIntensity with
  | some v => onDirectionalIntensityInput { st with directionalIntensityVal := v }
  | none => st

def setDirectionalColor (s : SettingsJS) (st : UIState) : UIState :=
  match truthyStr s.directionalColor with
  | some v => onDirectionalColorInput { st with directionalColorVal := v }
  | none => st

def setDirectionalX (s : SettingsJS) (st : UIState) : UIState :=
  match s.directionalX with
  | some v => onDirectionalXInput { st with directionalXVal := v }
  | none => st

def setDirectionalY (s : SettingsJS) (st : UIState) : UIState :=
  match s.directionalY with
  | some v => onDirectionalYInput { st with directionalYVal := v }
  | none => st

def setDirectionalZ (s : SettingsJS) (st : UIState) : UIState :=
  match s.directionalZ with
  | some v => onDirectionalZInput { st with directionalZVal := v }
  | none => st

def setFillIntensity (s : SettingsJS) (st : UIState) : UIState :=
  match s.fillIntensity with
  | some v => onFillIntensityInput { st with fillIntensityVal := v }
  | none => st

def setFillColor (s : SettingsJS) (st : UIState) : UIState :=
  match truthyStr s.fillColor with
  | some v => onFillColorInput { st with fillColorVal := v }
  | none => st

def setPointIntensity (s : SettingsJS) (st : UIState) : UIState :=
  match s.pointIntensity with
  | some v => onPointIntensityInput { st with pointIntensityVal := v }
  | none => st

def setPointColor (s : SettingsJS) (st : UIState) : UIState :=
  match truthyStr s.pointColor with
  | some v => onPointColorInput { st with pointColorVal := v }
  | none => st

/-- A missing or falsy `environmentType` defaults to `hdri` (main.js 1448-1455). -/
def setEnvironmentType (s : SettingsJS) (st : UIState) : UIState :=
  match truthyStr s.environmentType with
  | some v => applyEnvironmentType v { st with environmentTypeVal := v }
  | none => applyEnvironmentType ("hdri") { st with environmentTypeVal := "hdri" }

def setEnvIntensity (s : SettingsJS) (st : UIState) : UIState :=
  match s.envIntensity with
  | some v => onEnvIntensityInput { st with envIntensityVal := v }
  | none => st

def setLoadPanel (s : SettingsJS) (st : UIState) : UIState :=
  match s.loadPanelCollapsed with
  | some b => { st with loadPanelCollapsed := b }
  | none => st

def setLightingPanel (s : SettingsJS) (st : UIState) : UIState :=
  match s.lightingPanelCollapsed with
  | some b => { st with lightingPanelCollapsed := b }
  | none => st

def setOutlinerPanel (s : SettingsJS) (st : UIState) : UIState :=
  match s.outlinerPanelCollapsed with
  | some b => { st with outlinerPanelCollapsed := b }
  | none => st

def setRightPanelFlag (s : SettingsJS) (st : UIState) : UIState :=
  match s.rightPanelCollapsed with
  | some b =>
    if b then
      { st with rightPanel := { st.rightPanel with
          collapsed := true, arrow := "◄", toggleCollapsedClass := true } }
    else
      { st with rightPanel := { st.rightPanel with
          collapsed := false, arrow := "►", toggleCollapsedClass := false } }
  | none => st

/-- `applySettings` background block (main.js 1380-1392). -/
def applyBackgroundSettings (s : SettingsJS) (st : UIState) : UIState :=
  setBackgroundIntensity s (setBackgroundColor s (setBackgroundType s st))

/-- `applySettings` ambient block (main.js 1395-1402). -/
def applyAmbientSettings (s : SettingsJS) (st : UIState) : UIState :=
  setAmbientColor s (setAmbientIntensity s st)

/-- `applySettings` directional block (main.js 1405-1425). -/
def applyDirectionalSettings (s : SettingsJS) (st : UIState) : UIState :=
  setDirectionalZ s (setDirectionalY s (setDirectionalX s
    (setDirectionalColor s (setDirectionalIntensity s st))))

/-- `applySettings` fill block (main.js 1428-1435). -/
def applyFillSettings (s : SettingsJS) (st : UIState) : UIState :=
  setFillColor s (setFillIntensity s st)

/-- `applySettings` point block (main.js 1438-1445). -/
def applyPointSettings (s : SettingsJS) (st : UIState) : UIState :=
  setPointColor s (setPointIntensity s st)

/-- `applySettings` environment block (main.js 1448-1458). -/
def applyEnvironmentSettings (s : SettingsJS) (st : UIState) : UIState :=
  setEnvIntensity s (setEnvironmentType s st)

/-- `applySettings` panel block (main.js 1468-1494). -/
def applyPanelSettings (s : SettingsJS) (st : UIState) : UIState :=
  setRightPanelFlag s (setOutlinerPanel s (setLightingPanel s (setLoadPanel s st)))

/-- `applySettings(settings)` (main.js 1362-1496), in source order.  The
`sceneData` block only schedules `deserializeSceneData` on the model 500 ms
later (that function is modelled separately) and touches no `UIState`
field. -/
def applySettings (s : SettingsJS) (st : UIState) : UIState :=
  applyPanelSettings s (applyEnvironmentSettings s (applyPointSettings s
    (applyFillSettings s (applyDirectionalSettings s (applyAmbientSettings s
      (applyBackgroundSettings s st))))))

/-- The `reader.onload` handler of `loadSettingsFromFile` (main.js 1342-1352):
`JSON.parse` result as `some settings`, a parse exception as `none`.  On
success the settings are applied and a success dialog shown; on failure the
state is untouched and a failure dialog shown. -/
def loadSettingsFileOnload (parsed : Option SettingsJS) (st : UIState) :
    UIState × List Event :=
  match parsed with
  | some s =>
    (applySettings s st,
     [Event.alertShown ("Settings loaded successfully!"),
      Event.consoleLog ("Settings loaded from file")])
  | none =>
    (st,
     [Event.consoleError ("Error loading settings"),
      Event.alertShown ("Failed to load settings file. Please check that it is a valid JSON file.")])

/-! ## Double-click selection (`onMouseDoubleClick`, main.js 2777-2824) -/

/-- One raycast intersection: the hit object and the intersection point. -/
structure Hit where
  objectUuid : String
  point : Vec3Q
deriving DecidableEq

/-- The viewer fields `onMouseDoubleClick` can touch. -/
structure SelectionState where
  mouseX : ℚ
  mouseY : ℚ
  satelliteLoaded : Bool
  selectedPart : Option String
  selectedObject : Option String
  selectedIntersectionPoint : Option Vec3Q
  lastIntersectionPoint : Option Vec3Q
  isRotationPaused : Bool
  overlayHidden : Bool
deriving DecidableEq

/-- `closeIndicator()` (main.js 3486-3513) on the tracked fields. -/
def closeIndicatorSel (st : SelectionState) : SelectionState :=
  { st with
    selectedPart := none
    selectedObject := none
    selectedIntersectionPoint := none
    lastIntersectionPoint := none
    overlayHidden := true
    isRotationPaused := false }

/-- `showIndicator(object, point)` (main.js 2826-…) on the tracked fields:
select the object, store the (object-local) intersection point and unhide
the overlay. -/
def showIndicatorSel (h : Hit) (st : SelectionState) : SelectionState :=
  { st with
    selectedPart := some h.objectUuid
    selectedObject := some h.objectUuid
    selectedIntersectionPoint := some h.point
    overlayHidden := false }

/-- `onMouseDoubleClick(event)` (main.js 2777-2824).  The raycast against the
loaded model is library work; its result enters as `hits`, and with no model
the code passes `[]` to `intersectObjects`, which returns no hits.  The
click position and container rectangle are the event parameters. -/
def onMouseDoubleClick (containerPresent : Bool) (rectLeft rectTop rectW rectH ex ey : ℚ)
    (hits : List Hit) (st : SelectionState) : SelectionState :=
  if !containerPresent then st
  else
    let mouseX := ex - rectLeft
    let mouseY := ey - rectTop
    let st1 := { st with
      mouseX := mouseX / rectW * 2 - 1
      mouseY := -(mouseY / rectH * 2 - 1) }
    let intersects := if st1.satelliteLoaded then hits else []
    match intersects with
    | [] => st1
    | h :: _ =>
      let st2 := { st1 with lastIntersectionPoint := some h.point, isRotationPaused := true }
      if st2.selectedPart = some h.objectUuid then closeIndicatorSel st2
      else showIndicatorSel h st2

/-! ## The estimate drop handler (`handleDrop`, src/unnamed/part_002) -/

/-- Whether the `fetch` promise chain settles with a mesh part or rejects. -/
inductive FetchOutcome where
  | success (meshPart : String)
  | failure (err : String)

/-- `handleDrop(e, initProject)`: POST the dropped image to the estimate
endpoint; on success read the returned mesh blob and call `initProject`; on
rejection `.catch` logs to the console and nothing else happens. -/
def handleDrop (outcome : FetchOutcome) : List Event :=
  Event.fetchPost ("http://192.168.0.125:5000/api/estimate") ::
    match outcome with
    | FetchOutcome.success _ => [Event.readFile, Event.initProjectCall]
    | FetchOutcome.failure err => [Event.consoleLog ("error " ++ err)]

/-! ## The per-frame animation loop (`animate`, main.js 3557-3622)

`Math.sin`, `Math.cos`, `Math.atan2`, `Math.sqrt` and `Math.PI` are library
services; the frame step takes them as a parameter so that the paused-frame
facts hold for any implementation and the oscillation facts follow from the
mathematical properties the real functions satisfy. -/

structure MathAPI (K : Type) where
  sin : K → K
  cos : K → K
  atan2 : K → K → K
  sqrt : K → K
  pi : K

structure Vec3R (K : Type) where
  x : K
  y : K
  z : K

/-- The viewer fields the animation loop reads and writes.  `satelliteRotY`
is `satellite.rotation.y` when a model is loaded.  The scalar type is any
linear ordered field; the claims instantiate it with `ℝ`. -/
structure AnimState (K : Type) where
  isRotationPaused : Bool
  rotationTime : K
  lastFrameTime : K
  satelliteRotY : Option K
  directionalLightPos : Option (Vec3R K)
  fillLightPos : Option (Vec3R K)
  pointLightPos : Option (Vec3R K)
  initialDirectional : Option (Vec3R K)
  initialFill : Option (Vec3R K)
  initialPoint : Option (Vec3R K)
  selectedObject : Bool
  overlayHidden : Bool

/-- What a frame does besides mutating state. -/
structure FrameEffects where
  controlsUpdated : Bool
  indicatorUpdated : Bool
  rendered : Bool

/-- Light oscillation (main.js 3590-3614): swing the light around the y axis
by the rotation angle, keeping its initial height, when both the light and
its stored initial position exist. -/
def oscillateLight {K : Type} [LinearOrderedField K] (api : MathAPI K) (rotationAngle : K)
    (pos initial : Option (Vec3R K)) : Option (Vec3R K) :=
  match pos, initial with
  | some _, some ini =>
    let radius := api.sqrt (ini.x ^ 2 + ini.z ^ 2)
    let baseAngle := api.atan2 ini.z ini.x
    let newAngle := baseAngle + rotationAngle
    some ⟨api.cos newAngle * radius, ini.y, api.sin newAngle * radius⟩
  | p, _ => p

/-- One iteration of `animate()` (main.js 3557-3622): update the frame clock
and orbit controls; unless rotation is paused, advance the oscillation time
and set the satellite rotation and the three light positions; update the
indicator position when an object is selected and the overlay visible; then
render. -/
def animateFrame {K : Type} [LinearOrderedField K] (api : MathAPI K) (currentTime : K)
    (st : AnimState K) : AnimState K × FrameEffects :=
  let deltaTime := (currentTime - st.lastFrameTime) / 1000
  let st1 := { st with lastFrameTime := currentTime }
  let st2 :=
    if st1.isRotationPaused then st1
    else
      let rotationTime := st1.rotationTime + deltaTime
      let cycleDuration : K := 80
      let oscillation := api.sin (rotationTime / cycleDuration * (api.pi * 2))
      let rotationAngle := oscillation * (api.pi / 4)
      { st1 with
        rotationTime := rotationTime
        satelliteRotY := st1.satelliteRotY.map (fun _ => rotationAngle)
        directionalLightPos :=
          oscillateLight api rotationAngle st1.directionalLightPos st1.initialDirectional
        fillLightPos := oscillateLight api rotationAngle st1.fillLightPos st1.initialFill
        pointLightPos := oscillateLight api rotationAngle st1.pointLightPos st1.initialPoint }
  (st2,
   { controlsUpdated := true
     indicatorUpdated := st2.selectedObject && !st2.overlayHidden
     rendered := true })

/-! ## Sample data

Concrete instances used to evaluate the verified functions on explicit
inputs. -/

def sampleTexture : TextureJS :=
  { uuid := "tex-1", sourceUrl := some ("assets/images/t.png") }

def sampleMaterial : MaterialJS :=
  { uuid := "mat-1", name := "Panel_01-Solar_Panel_Cell_Material_UV", kind := MatKind.standard,
    color := 0xff00aa, emissive := some 0x102030, roughness := some (1 / 2), metalness := none,
    emissiveIntensity := some 2, opacity := some (1 / 4), transparent := false,
    map := some sampleTexture, normalMap := some { uuid := "tex-2", sourceUrl := none },
    roughnessMap := none, metalnessMap := none, aoMap := none,
    emissiveMap := some { uuid := "tex-3", sourceUrl := none } }

def sampleBasicMaterial : MaterialJS :=
  { uuid := "mat-2", name := "plastic", kind := MatKind.basic,
    color := 0x0000ff, emissive := none, roughness := none, metalness := none,
    emissiveIntensity := none, opacity := none, transparent := false,
    map := none, normalMap := none, roughnessMap := none, metalnessMap := none,
    aoMap := none, emissiveMap := none }

def sampleMesh : MeshJS :=
  { uuid := "mesh-1", name := "panel", position := ⟨1, 2, 3⟩, rotation := ⟨0, 1, 0⟩,
    scale := ⟨1, 1, 1⟩, visible := true, castShadow := false, geometry := some ("geo-1"),
    material := some [sampleMaterial, sampleBasicMaterial] }

def sampleModel : ModelJS :=
  { meshes := [sampleMesh], position := ⟨0, 0, 0⟩, scale := ⟨1, 1, 1⟩, bboxCenter := ⟨5, 0, -2⟩ }

/-- A model whose single mesh has a whitespace-only (truthy but blank) name. -/
def blankNameMesh : MeshJS :=
  { uuid := "mesh-b", name := " ", position := ⟨0, 0, 0⟩, rotation := ⟨0, 0, 0⟩,
    scale := ⟨1, 1, 1⟩, visible := true, castShadow := false, geometry := none,
    material := some [sampleBasicMaterial] }

def blankNameModel : ModelJS :=
  { meshes := [blankNameMesh], position := ⟨0, 0, 0⟩, scale := ⟨1, 1, 1⟩,
    bboxCenter := ⟨0, 0, 0⟩ }

def sampleLoadState : LoadState :=
  { satellite := some sampleModel, partData := [], loadingVisible := false }

def emptyLoadState : LoadState :=
  { satellite := none, partData := [], loadingVisible := false }

def sampleLight : LightQ :=
  { intensity := 1, colorHex := 0x404040, px := 0, py := 0, pz := 0 }

def samplePanelState : RightPanelState :=
  { collapsed := false, arrow := "►", toggleCollapsedClass := false,
    presetButtonsHidden := true, currentPreset := none, presetButtonsActive := false }

def sampleUIState : UIState :=
  { backgroundTypeVal := "stars", backgroundColorVal := "#000000", backgroundIntensityVal := 1,
    ambientIntensityVal := 1 / 2, ambientColorVal := "#404040", directionalIntensityVal := 1,
    directionalColorVal := "#ffffff", directionalXVal := -5, directionalYVal := 5,
    directionalZVal := -5, fillIntensityVal := 3 / 10, fillColorVal := "#4a9eff",
    pointIntensityVal := 1 / 2, pointColorVal := "#4a9eff", environmentTypeVal := "hdri",
    envIntensityVal := 1, backgroundIntensity := 1, currentEnvIntensity := 1,
    starFieldVisible := true, sceneEnvironmentSet := true, ambientLight := some sampleLight,
    directionalLight := some { sampleLight with colorHex := 0xffffff },
    fillLight := some { sampleLight with colorHex := 0x4a9eff },
    pointLight := some { sampleLight with colorHex := 0x4a9eff },
    loadPanelCollapsed := false, lightingPanelCollapsed := false,
    outlinerPanelCollapsed := false, rightPanel := samplePanelState }

/-- A settings document that only sets the ambient intensity to `0.7`. -/
def sampleSettings : SettingsJS :=
  { backgroundType := none, backgroundColor := none, backgroundIntensity := none,
    ambientIntensity := some (7 / 10), ambientColor := none, directionalIntensity := none,
    directionalColor := none, directionalX := none, directionalY := none, directionalZ := none,
    fillIntensity := none, fillColor := none, pointIntensity := none, pointColor := none,
    environmentType := none, envIntensity := none, sceneData := none,
    loadPanelCollapsed := none, lightingPanelCollapsed := none, outlinerPanelCollapsed := none,
    rightPanelCollapsed := some true }

/-! # Theorems -/

/-- C7: toggling the right side panel twice restores the `collapsed` class to
its initial value and leaves the toggle button's arrow text at the canonical
arrow for that state (`◄` collapsed, `►` expanded). -/
theorem toggleRightPanel_twice_restores (s : RightPanelState) :
    (toggleRightPanel (toggleRightPanel s)).collapsed = s.collapsed ∧
    (toggleRightPanel (toggleRightPanel s)).arrow = (if s.collapsed then "◄" else "►") := by
  cases h : s.collapsed <;> simp [toggleRightPanel, h]

/-! ### Support for the `formatPartName` bound -/

theorem mem_replaceGo {m : Option Char → List Char → Option Nat} {repl : List Char} :
    ∀ (fuel : Nat) (prev : Option Char) (s : List Char) (c : Char),
      c ∈ replaceGo m repl fuel prev s → c ∈ repl ∨ c ∈ s := by
  intro fuel
  induction fuel with
  | zero =>
    intro prev s c h
    rw [replaceGo] at h
    exact Or.inr h
  | succ n ih =>
    intro prev s c h
    match s with
    | [] =>
      rw [replaceGo] at h
      exact absurd h (List.not_mem_nil c)
    | a :: as =>
      rw [replaceGo] at h
      cases hm : m prev (a :: as) with
      | some k =>
        rw [hm] at h
        rcases List.mem_append.mp h with h1 | h2
        · exact Or.inl h1
        · rcases ih _ _ _ h2 with h3 | h4
          · exact Or.inl h3
          · exact Or.inr (List.drop_subset _ _ h4)
      | none =>
        rw [hm] at h
        rcases List.mem_cons.mp h with h1 | h2
        · exact Or.inr (h1 ▸ List.mem_cons_self a as)
        · rcases ih _ _ _ h2 with h3 | h4
          · exact Or.inl h3
          · exact Or.inr (List.mem_cons_of_mem a h4)

set_option linter.unnecessarySimpa false

theorem mem_replaceG {m : Option Char → List Char → Option Nat} {repl s : List Char}
    {c : Char} (h : c ∈ replaceG m repl s) : c ∈ repl ∨ c ∈ s :=
  mem_replaceGo s.length none s c h

theorem collapseWsGo_ok :
    ∀ (l : List Char) (b : Bool), ∀ c ∈ collapseWsGo b l, isWsJS c = true → c = ' ' := by
  intro l
  induction l with
  | nil => intro b c hc; simp [collapseWsGo] at hc
  | cons a rest ih =>
    intro b c hc hw
    rw [collapseWsGo] at hc
    by_cases hws : isWsJS a = true
    · rw [if_pos hws] at hc
      cases b with
      | true => exact ih true c hc hw
      | false =>
        rcases List.mem_cons.mp (by simpa using hc) with h1 | h2
        · exact h1
        · exact ih true c h2 hw
    · rw [if_neg hws] at hc
      rcases List.mem_cons.mp hc with h1 | h2
      · exact absurd (h1 ▸ hw) (by simpa using hws)
      · exact ih false c h2 hw

theorem collapseWsJS_ok :
    ∀ (l : List Char), ∀ c ∈ collapseWsJS l, isWsJS c = true → c = ' ' := by
  intro l c hc hw
  exact collapseWsGo_ok l false c hc hw

theorem trimJS_subset (l : List Char) : ∀ c ∈ trimJS l, c ∈ l := by
  intro c hc
  rw [trimJS] at hc
  have h1 := List.mem_reverse.mp hc
  have h2 := (List.dropWhile_sublist (l := (l.dropWhile isWsJS).reverse) isWsJS).subset h1
  have h3 := List.mem_reverse.mp h2
  exact (List.dropWhile_sublist (l := l) isWsJS).subset h3

theorem splitOnSpace_ne_nil (l : List Char) : splitOnSpace l ≠ [] := by
  induction l with
  | nil => simp [splitOnSpace]
  | cons c rest ih =>
    rw [splitOnSpace]
    by_cases h : c = ' '
    · simp [h]
    · simp only [if_neg h]
      cases hs : splitOnSpace rest with
      | nil => exact absurd hs ih
      | cons w ws => simp

theorem splitOnSpace_mem :
    ∀ (l : List Char), ∀ w ∈ splitOnSpace l, ∀ c ∈ w, c ∈ l ∧ c ≠ ' ' := by
  intro l
  induction l with
  | nil =>
    intro w hw c hc
    simp [splitOnSpace] at hw
    subst hw
    simp at hc
  | cons a rest ih =>
    intro w hw c hc
    rw [splitOnSpace] at hw
    by_cases h : a = ' '
    · rw [if_pos h] at hw
      rcases List.mem_cons.mp hw with h1 | h2
      · subst h1; simp at hc
      · have := ih w h2 c hc
        exact ⟨List.mem_cons_of_mem a this.1, this.2⟩
    · rw [if_neg h] at hw
      cases hs : splitOnSpace rest with
      | nil => exact absurd hs (splitOnSpace_ne_nil rest)
      | cons w0 ws =>
        rw [hs] at hw
        rcases List.mem_cons.mp hw with h1 | h2
        · subst h1
          rcases List.mem_cons.mp hc with h3 | h4
          · exact ⟨h3 ▸ List.mem_cons_self a rest, h3 ▸ h⟩
          · have := ih w0 (hs ▸ List.mem_cons_self w0 ws) c h4
            exact ⟨List.mem_cons_of_mem a this.1, this.2⟩
        · have := ih w (hs ▸ List.mem_cons_of_mem w0 h2) c hc
          exact ⟨List.mem_cons_of_mem a this.1, this.2⟩

theorem dedupGo_mem :
    ∀ (words seen uniq : List (List Char)) (w : List Char),
      w ∈ dedupGo words seen uniq → w ∈ words ∨ w ∈ uniq := by
  intro words
  induction words with
  | nil => intro seen uniq w h; exact Or.inr (by simpa [dedupGo] using h)
  | cons w0 rest ih =>
    intro seen uniq w h
    rw [dedupGo] at h
    by_cases hc : (!(seen.contains (w0.map Char.toLower)) &&
        (decide (uniq.length < 2) || !(suffixSkipWords.contains (w0.map Char.toLower)))) = true
    · rw [if_pos hc] at h
      rcases ih _ _ _ h with h1 | h2
      · exact Or.inl (List.mem_cons_of_mem w0 h1)
      · rcases List.mem_append.mp h2 with h3 | h4
        · exact Or.inr h3
        · simp at h4
          exact Or.inl (h4 ▸ List.mem_cons_self w0 rest)
    · rw [if_neg hc] at h
      rcases ih _ _ _ h with h1 | h2
      · exact Or.inl (List.mem_cons_of_mem w0 h1)
      · exact Or.inr h2

theorem countWordsGo_wsfree (l : List Char) (h : ∀ c ∈ l, isWsJS c = false) :
    countWordsGo true l = 0 ∧ countWordsGo false l = (if l = [] then 0 else 1) := by
  induction l with
  | nil => simp [countWordsGo]
  | cons c rest ih =>
    have hc : isWsJS c = false := h c (List.mem_cons_self c rest)
    have ihr := ih (fun x hx => h x (List.mem_cons_of_mem c hx))
    constructor
    · rw [countWordsGo, if_neg (by simp [hc])]
      simpa using ihr.1
    · rw [countWordsGo, if_neg (by simp [hc])]
      simpa using ihr.1

theorem countWords_wsfree (l : List Char) (h : ∀ c ∈ l, isWsJS c = false) :
    countWords l ≤ 1 := by
  rw [countWords, (countWordsGo_wsfree l h).2]
  by_cases he : l = [] <;> simp [he]

theorem countWordsGo_wsfree_append (a b : List Char) (ha : ∀ c ∈ a, isWsJS c = false) :
    countWordsGo true (a ++ ' ' :: b) = countWordsGo false b := by
  induction a with
  | nil =>
    rw [List.nil_append, countWordsGo, if_pos (by simp [isWsJS])]
  | cons c a' ih =>
    have hc : isWsJS c = false := ha c (List.mem_cons_self c a')
    rw [List.cons_append, countWordsGo, if_neg (by simp [hc])]
    simpa using ih (fun x hx => ha x (List.mem_cons_of_mem c hx))

theorem countWords_append_wsfree (a b : List Char) (ha : ∀ c ∈ a, isWsJS c = false) :
    countWords (a ++ ' ' :: b) = (if a = [] then 0 else 1) + countWords b := by
  cases a with
  | nil =>
    rw [countWords, List.nil_append, countWordsGo, if_pos (by simp [isWsJS])]
    simp [countWords]
  | cons c a' =>
    have hc : isWsJS c = false := ha c (List.mem_cons_self c a')
    rw [countWords, List.cons_append, countWordsGo, if_neg (by simp [hc])]
    rw [countWordsGo_wsfree_append a' b (fun x hx => ha x (List.mem_cons_of_mem c hx))]
    simp [countWords]

theorem countWords_joinSpace_take2 (ws : List (List Char))
    (h : ∀ w ∈ ws, ∀ c ∈ w, isWsJS c = false) :
    countWords (joinSpace (ws.take 2)) ≤ 2 := by
  match ws with
  | [] => simp [joinSpace, countWords, countWordsGo]
  | [a] =>
    have h1 := countWords_wsfree a (h a (List.mem_cons_self a []))
    have h2 : joinSpace ([a].take 2) = a := by rfl
    rw [h2]
    omega
  | a :: b :: rest =>
    have hja : joinSpace ((a :: b :: rest).take 2) = a ++ ' ' :: b := by rfl
    rw [hja, countWords_append_wsfree a b (h a (List.mem_cons_self a _))]
    have hb := countWords_wsfree b (h b (List.mem_cons_of_mem a (List.mem_cons_self b rest)))
    by_cases hae : a = []
    · rw [if_pos hae]; omega
    · rw [if_neg hae]; omega

theorem replaceG_preserves_ok {m : Option Char → List Char → Option Nat} {repl s : List Char}
    (hr : ∀ c ∈ repl, isWsJS c = true → c = ' ')
    (hs : ∀ c ∈ s, isWsJS c = true → c = ' ') :
    ∀ c ∈ replaceG m repl s, isWsJS c = true → c = ' ' := by
  intro c hc hw
  rcases mem_replaceG hc with h | h
  · exact hr c h hw
  · exact hs c h hw

theorem formatReplacements_ok (l : List Char) :
    ∀ c ∈ formatReplacements l, isWsJS c = true → c = ' ' := by
  have h2 : ∀ c ∈ trimJS (collapseWsJS (replaceUnderscoreHyphen l)), isWsJS c = true → c = ' ' :=
    fun c hc => collapseWsJS_ok _ c (trimJS_subset _ c hc)
  simp only [formatReplacements]
  exact replaceG_preserves_ok (by decide)
    (replaceG_preserves_ok (by decide)
      (replaceG_preserves_ok (by decide)
        (replaceG_preserves_ok (by decide)
          (replaceG_preserves_ok (by decide)
            (replaceG_preserves_ok (by decide)
              (replaceG_preserves_ok (by decide)
                (replaceG_preserves_ok (by decide)
                  (replaceG_preserves_ok (by decide)
                    (replaceG_preserves_ok (by decide)
                      (replaceG_preserves_ok (by decide)
                        (replaceG_preserves_ok (by decide) h2)))))))))))

theorem countWordsStr_mk (l : List Char) : countWordsStr (String.mk l) = countWords l :=
  rfl

theorem formatPartNameL_bound (l : List Char) : countWords (formatPartNameL l) ≤ 2 := by
  rw [formatPartNameL]
  apply countWords_joinSpace_take2
  intro w hw c hc
  have hmem : w ∈ splitOnSpace (formatReplacements l) := by
    rcases dedupGo_mem _ [] [] w hw with h | h
    · exact h
    · exact absurd h (List.not_mem_nil w)
  have hsp := splitOnSpace_mem _ w hmem c hc
  cases hws : isWsJS c with
  | false => rfl
  | true => exact absurd (formatReplacements_ok l c hsp.1 hws) hsp.2

/-- C9: `formatPartName` replaces underscores and hyphens by spaces, applies
the domain renames (`panel` → `Solar Arrays`, `heat shield` → `Crew Module`,
exhaust variants → `Exhaust`), removes duplicate words case-insensitively,
keeps only the first two remaining words, and therefore returns a string of
at most two whitespace-separated words for every input. -/
theorem formatPartName_two_words :
    (∀ s : String, countWordsStr (formatPartName s) ≤ 2) ∧
    formatPartName ("panel") = "Solar Arrays" ∧
    formatPartName ("heat shield") = "Crew Module" ∧
    formatPartName ("Exhaust_Metal") = "Exhaust" ∧
    formatPartName ("Exhaust02") = "Exhaust" ∧
    formatPartName ("Foo_foo_Bar") = "Foo Bar" ∧
    formatPartName ("Alpha_Beta_Gamma") = "Alpha Beta" := by
  refine ⟨?_, by decide, by decide, by decide, by decide, by decide, by decide⟩
  intro s
  rw [formatPartName]
  split
  · rename_i h
    subst h
    decide
  · rw [countWordsStr_mk]
    exact formatPartNameL_bound s.data

/-- C8: when the POST to the estimate endpoint rejects, the failure is logged
to the console only: a single fetch is issued (no retry), no alert dialog is
shown, and the model-loading path `initProject` is not invoked. -/
theorem handleDrop_failure_logged_only (err : String) :
    (handleDrop (FetchOutcome.failure err)).countP
      (fun e => match e with | Event.fetchPost _ => true | _ => false) = 1 ∧
    (∀ m, Event.alertShown m ∉ handleDrop (FetchOutcome.failure err)) ∧
    Event.initProjectCall ∉ handleDrop (FetchOutcome.failure err) ∧
    Event.consoleLog ("error " ++ err) ∈ handleDrop (FetchOutcome.failure err) := by
  refine ⟨?_, ?_, ?_, ?_⟩ <;> simp [handleDrop]

/-- C6: a double-click whose raycast finds no intersection (in particular
whenever no model is loaded) does not open the part-info overlay and leaves
the selection state — `selectedPart`, `selectedObject`, `isRotationPaused`,
`lastIntersectionPoint` — unchanged. -/
theorem onMouseDoubleClick_no_hit (rl rt rw rh ex ey : ℚ) (hits : List Hit)
    (st : SelectionState) (h : hits = [] ∨ st.satelliteLoaded = false) :
    (onMouseDoubleClick true rl rt rw rh ex ey hits st).selectedPart = st.selectedPart ∧
    (onMouseDoubleClick true rl rt rw rh ex ey hits st).selectedObject = st.selectedObject ∧
    (onMouseDoubleClick true rl rt rw rh ex ey hits st).isRotationPaused = st.isRotationPaused ∧
    (onMouseDoubleClick true rl rt rw rh ex ey hits st).lastIntersectionPoint
      = st.lastIntersectionPoint ∧
    (onMouseDoubleClick true rl rt rw rh ex ey hits st).overlayHidden = st.overlayHidden := by
  rcases h with h | h <;> simp [onMouseDoubleClick, h]

/-- C6 witness: a concrete empty raycast leaves the selection state alone. -/
theorem onMouseDoubleClick_no_hit_witness :
    (onMouseDoubleClick true 0 0 800 600 100 100 []
        { mouseX := 0, mouseY := 0, satelliteLoaded := true, selectedPart := some ("p"),
          selectedObject := some ("p"), selectedIntersectionPoint := none,
          lastIntersectionPoint := some ⟨1, 2, 3⟩, isRotationPaused := true,
          overlayHidden := false }).selectedPart = some ("p") := by
  have h := onMouseDoubleClick_no_hit 0 0 800 600 100 100 []
    { mouseX := 0, mouseY := 0, satelliteLoaded := true, selectedPart := some ("p"),
      selectedObject := some ("p"), selectedIntersectionPoint := none,
      lastIntersectionPoint := some ⟨1, 2, 3⟩, isRotationPaused := true,
      overlayHidden := false } (Or.inl rfl)
  exact h.1

theorem addToScene_not_mem_removePrev (sat : Option ModelJS) :
    Event.addToScene ∉ removePreviousModelEvents sat := by
  cases sat with
  | none => simp [removePreviousModelEvents]
  | some prev =>
    rw [removePreviousModelEvents]
    intro hmem
    rcases List.mem_cons.mp hmem with h1 | h2
    · exact Event.noConfusion h1
    · rcases List.mem_flatMap.mp h2 with ⟨c, _, hin⟩
      rw [disposeMeshEvents] at hin
      rcases List.mem_append.mp hin with h3 | h4
      · cases hg : c.geometry <;> rw [hg] at h3 <;> simp at h3
      · cases hmats : c.material with
        | none => rw [hmats] at h4; simp at h4
        | some mats =>
          rw [hmats] at h4
          rcases List.mem_flatMap.mp h4 with ⟨m, _, hin2⟩
          rw [disposeMaterialEvents] at hin2
          rcases List.mem_append.mp hin2 with h5 | h6
          · rcases List.mem_append.mp h5 with h5 | h6
            · rcases List.mem_append.mp h5 with h5 | h6
              · rcases List.mem_append.mp h5 with h5 | h6
                · rcases List.mem_append.mp h5 with h5 | h6
                  · rcases List.mem_append.mp h5 with h5 | h6
                    · cases ht : m.map <;> rw [ht] at h5 <;> simp [disposeTexEvent] at h5
                    · cases ht : m.normalMap <;> rw [ht] at h6 <;> simp [disposeTexEvent] at h6
                  · cases ht : m.roughnessMap <;> rw [ht] at h6 <;> simp [disposeTexEvent] at h6
                · cases ht : m.metalnessMap <;> rw [ht] at h6 <;> simp [disposeTexEvent] at h6
              · cases ht : m.aoMap <;> rw [ht] at h6 <;> simp [disposeTexEvent] at h6
            · cases ht : m.emissiveMap <;> rw [ht] at h6 <;> simp [disposeTexEvent] at h6
          · simp at h6

/-- C4: a failed model load leaves the scene without a model (the satellite
reference is `null` and nothing is added to the scene), hides the loading
indicator, and notifies the user via a blocking alert; a failed settings
JSON parse applies nothing and likewise alerts (the `parsed = none` argument
is the `JSON.parse` exception). -/
theorem loadFailure_alerts_and_leaves_scene_empty (st : LoadState) (err : String)
    (st2 : UIState) :
    (loadModelFromFileRun st (LoadOutcome.failure err)).1.satellite = none ∧
    (loadModelFromFileRun st (LoadOutcome.failure err)).1.loadingVisible = false ∧
    Event.alertShown ("Failed to load 3D model. Please check the console for details.")
      ∈ (loadModelFromFileRun st (LoadOutcome.failure err)).2 ∧
    Event.addToScene ∉ (loadModelFromFileRun st (LoadOutcome.failure err)).2 ∧
    (loadSettingsFileOnload none st2).1 = st2 ∧
    Event.alertShown ("Failed to load settings file. Please check that it is a valid JSON file.")
      ∈ (loadSettingsFileOnload none st2).2 := by
  refine ⟨?_, ?_, ?_, ?_, ?_, ?_⟩
  · cases hs : st.satellite <;> simp [loadModelFromFileRun, hs]
  · cases hs : st.satellite <;> simp [loadModelFromFileRun, hs]
  · cases hs : st.satellite <;> simp [loadModelFromFileRun, hs]
  · intro hmem
    cases hs : st.satellite with
    | none =>
      rw [loadModelFromFileRun] at hmem
      simp [hs, removePreviousModelEvents] at hmem
    | some prev =>
      rw [loadModelFromFileRun] at hmem
      simp only [hs] at hmem
      have h3 : Event.addToScene ∈ removePreviousModelEvents (some prev) := by
        simpa [List.append_assoc] using hmem
      exact addToScene_not_mem_removePrev (some prev) h3
  · simp [loadSettingsFileOnload]
  · simp [loadSettingsFileOnload]

/-! ### Support for the dispose-before-add ordering -/

theorem ob_mem_left (l₁ l₂ : List Event) {a b : Event} (ha : a ∈ l₁) (hb : b ∈ l₂) :
    occursBefore (l₁ ++ l₂) a b := by
  obtain ⟨i, hi, hia⟩ := List.mem_iff_getElem.mp ha
  obtain ⟨j, hj, hjb⟩ := List.mem_iff_getElem.mp hb
  refine ⟨i, l₁.length + j, by omega, ?_, ?_⟩
  · rw [List.getElem?_append_left hi, List.getElem?_eq_getElem hi, hia]
  · rw [List.getElem?_append_right (by omega)]
    have : l₁.length + j - l₁.length = j := by omega
    rw [this, List.getElem?_eq_getElem hj, hjb]

theorem dispose_before_add (prev : ModelJS) (tail : List Event)
    (hadd : Event.addToScene ∈ tail) :
    allDisposedBeforeAdd (removePreviousModelEvents (some prev) ++ tail) prev := by
  have hmeshmem : ∀ c ∈ prev.meshes, ∀ e ∈ disposeMeshEvents c,
      e ∈ removePreviousModelEvents (some prev) := by
    intro c hc e he
    rw [removePreviousModelEvents]
    exact List.mem_cons_of_mem _ (List.mem_flatMap.mpr ⟨c, hc, he⟩)
  constructor
  · exact ob_mem_left _ _ (by rw [removePreviousModelEvents]; exact List.mem_cons_self _ _) hadd
  · intro c hc
    have hmesh := hmeshmem c hc
    constructor
    · intro g hg
      refine ob_mem_left _ _ (hmesh _ ?_) hadd
      rw [disposeMeshEvents, hg]
      simp
    · intro mats hm m hmem
      have hmatev : ∀ e ∈ disposeMaterialEvents m, e ∈ disposeMeshEvents c := by
        intro e he
        rw [disposeMeshEvents, hm]
        exact List.mem_append_right _ (List.mem_flatMap.mpr ⟨m, hmem, he⟩)
      refine ⟨?_, ?_, ?_, ?_, ?_, ?_, ?_⟩
      · exact ob_mem_left _ _ (hmesh _ (hmatev _ (by rw [disposeMaterialEvents]; simp))) hadd
      · intro t ht
        exact ob_mem_left _ _ (hmesh _ (hmatev _
          (by rw [disposeMaterialEvents, ht]; simp [disposeTexEvent]))) hadd
      · intro t ht
        exact ob_mem_left _ _ (hmesh _ (hmatev _
          (by rw [disposeMaterialEvents, ht]; simp [disposeTexEvent]))) hadd
      · intro t ht
        exact ob_mem_left _ _ (hmesh _ (hmatev _
          (by rw [disposeMaterialEvents, ht]; simp [disposeTexEvent]))) hadd
      · intro t ht
        exact ob_mem_left _ _ (hmesh _ (hmatev _
          (by rw [disposeMaterialEvents, ht]; simp [disposeTexEvent]))) hadd
      · intro t ht
        exact ob_mem_left _ _ (hmesh _ (hmatev _
          (by rw [disposeMaterialEvents, ht]; simp [disposeTexEvent]))) hadd
      · intro t ht
        exact ob_mem_left _ _ (hmesh _ (hmatev _
          (by rw [disposeMaterialEvents, ht]; simp [disposeTexEvent]))) hadd

/-- C2: when a new model file is selected while a model is loaded,
`loadModelFromFile` (and `loadModelByPath`) disposes every geometry, every
material and every texture map of the previous model's meshes, and removes
the previous model from the scene, strictly before the new model is added. -/
theorem loadModel_disposes_previous_before_add (st : LoadState) (prev newM : ModelJS)
    (hsat : st.satellite = some prev) :
    allDisposedBeforeAdd ((loadModelFromFileRun st (LoadOutcome.success newM)).2) prev ∧
    allDisposedBeforeAdd ((loadModelByPathRun st (LoadOutcome.success newM)).2) prev := by
  constructor
  · have e1 : (loadModelFromFileRun st (LoadOutcome.success newM)).2 =
        removePreviousModelEvents (some prev) ++
          ([Event.clearPartData, Event.closeIndicator, Event.buildOutliner, Event.showLoading] ++
            (solarTextureRequests (loadSuccessModel newM) ++
              ([Event.addToScene, Event.buildOutliner, Event.hideLoading] ++
                [Event.revokeObjectURL]))) := by
      simp [loadModelFromFileRun, loadSuccess, hsat, List.append_assoc]
    rw [e1]
    exact dispose_before_add prev _ (by simp)
  · have e2 : (loadModelByPathRun st (LoadOutcome.success newM)).2 =
        removePreviousModelEvents (some prev) ++
          ([Event.clearPartData, Event.closeIndicator, Event.buildOutliner, Event.showLoading] ++
            (solarTextureRequests (loadSuccessModel newM) ++
              [Event.addToScene, Event.buildOutliner, Event.hideLoading])) := by
      simp [loadModelByPathRun, loadSuccess, hsat, List.append_assoc]
    rw [e2]
    exact dispose_before_add prev _ (by simp)

/-- C2 witness: the disposal ordering evaluated on a concrete loaded model. -/
theorem loadModel_disposes_previous_before_add_witness :
    allDisposedBeforeAdd ((loadModelFromFileRun sampleLoadState
      (LoadOutcome.success blankNameModel)).2) sampleModel ∧
    allDisposedBeforeAdd ((loadModelByPathRun sampleLoadState
      (LoadOutcome.success blankNameModel)).2) sampleModel :=
  loadModel_disposes_previous_before_add sampleLoadState sampleModel blankNameModel rfl

/-! ### Support for the part-data lookups -/

theorem lookupAssoc_setAssoc_self (pd : List (String × PartInfo)) (k : String) (v : PartInfo) :
    lookupAssoc (setAssoc pd k v) k = some v := by
  induction pd with
  | nil => simp [setAssoc, lookupAssoc]
  | cons kv rest ih =>
    rw [setAssoc]
    by_cases h : kv.1 = k
    · rw [if_pos h, lookupAssoc, if_pos rfl]
    · rw [if_neg h, lookupAssoc, if_neg h]
      exact ih

theorem lookupAssoc_setAssoc_ne (pd : List (String × PartInfo)) (k u : String) (v : PartInfo)
    (h : k ≠ u) : lookupAssoc (setAssoc pd k v) u = lookupAssoc pd u := by
  induction pd with
  | nil => simp [setAssoc, lookupAssoc, h]
  | cons kv rest ih =>
    rw [setAssoc]
    by_cases h2 : kv.1 = k
    · rw [if_pos h2, lookupAssoc, if_neg h, lookupAssoc, if_neg (h2 ▸ h)]
    · rw [if_neg h2, lookupAssoc, lookupAssoc]
      by_cases h3 : kv.1 = u
      · rw [if_pos h3, if_pos h3]
      · rw [if_neg h3, if_neg h3]
        exact ih

theorem lookupAssoc_tagStep_ne (pd : List (String × PartInfo)) (c : MeshJS) (u : String)
    (h : c.uuid ≠ u) : lookupAssoc (tagPartInfoStep pd c) u = lookupAssoc pd u := by
  rw [tagPartInfoStep]
  split
  · exact lookupAssoc_setAssoc_ne pd c.uuid u _ h
  · rfl

theorem lookupAssoc_tagFold_not_mem (meshes : List MeshJS) (pd : List (String × PartInfo))
    (u : String) (h : u ∉ meshes.map MeshJS.uuid) :
    lookupAssoc (meshes.foldl tagPartInfoStep pd) u = lookupAssoc pd u := by
  induction meshes generalizing pd with
  | nil => rfl
  | cons c rest ih =>
    rw [List.foldl_cons]
    have h1 : c.uuid ≠ u := by
      intro he
      exact h (by simp [he.symm])
    have h2 : u ∉ rest.map MeshJS.uuid := by
      intro hm
      exact h (by simp [hm])
    rw [ih _ h2, lookupAssoc_tagStep_ne pd c u h1]

theorem tagParts_fold_lookup (meshes : List MeshJS) (pd : List (String × PartInfo))
    (hnodup : (meshes.map MeshJS.uuid).Nodup) (c : MeshJS) (hc : c ∈ meshes)
    (hname : (c.name ≠ "" && jsTrimStr c.name ≠ "") = true) :
    lookupAssoc (meshes.foldl tagPartInfoStep pd) c.uuid =
      some { name := formatPartName c.name,
             description := "Part of the " ++ formatPartName c.name ++ " component." } := by
  induction meshes generalizing pd with
  | nil => exact absurd hc (List.not_mem_nil c)
  | cons c0 rest ih =>
    rw [List.foldl_cons]
    rcases List.mem_cons.mp hc with h1 | h2
    · subst h1
      have hn : (c.uuid :: rest.map MeshJS.uuid).Nodup := by
        rw [List.map_cons] at hnodup
        exact hnodup
      have hnm : c.uuid ∉ rest.map MeshJS.uuid := (List.nodup_cons.mp hn).1
      rw [lookupAssoc_tagFold_not_mem rest _ c.uuid hnm, tagPartInfoStep, if_pos hname]
      exact lookupAssoc_setAssoc_self pd c.uuid _
    · have hn : (c0.uuid :: rest.map MeshJS.uuid).Nodup := by
        rw [List.map_cons] at hnodup
        exact hnodup
      exact ih _ (List.nodup_cons.mp hn).2 h2

theorem convertMaterialsMesh_uuid (c : MeshJS) : (convertMaterialsMesh c).uuid = c.uuid := by
  rw [convertMaterialsMesh]
  cases c.material <;> rfl

theorem convertMaterialsMesh_name (c : MeshJS) : (convertMaterialsMesh c).name = c.name := by
  rw [convertMaterialsMesh]
  cases c.material <;> rfl

/-- C3 (amended to the satellite viewer's loading paths and to names that are
non-blank after trimming): the success callback centers the model at minus
its bounding-box center, scales it to `(40, 40, 40)`, converts every mesh
material to `MeshStandardMaterial` (keeping those already standard or
physical), and tags every mesh with a non-blank name with the part-metadata
record `{ name, description }` keyed by the mesh's uuid, where `name` is
`formatPartName` of the raw mesh name. -/
theorem loadSuccess_centers_scales_converts_tags (gltf : ModelJS) (st : LoadState)
    (hnodup : (gltf.meshes.map MeshJS.uuid).Nodup) :
    ∃ m, (loadSuccess gltf st).1.satellite = some m ∧
      m.position = ⟨-gltf.bboxCenter.x, -gltf.bboxCenter.y, -gltf.bboxCenter.z⟩ ∧
      m.scale = ⟨40, 40, 40⟩ ∧
      m.meshes = gltf.meshes.map convertMaterialsMesh ∧
      (∀ c ∈ m.meshes, ∀ mats, c.material = some mats → ∀ mat ∈ mats,
        mat.kind = MatKind.standard ∨ mat.kind = MatKind.physical) ∧
      (∀ c ∈ gltf.meshes, jsTrimStr c.name ≠ "" →
        lookupAssoc (loadSuccess gltf st).1.partData c.uuid =
          some { name := formatPartName c.name,
                 description := "Part of the " ++ formatPartName c.name ++ " component." }) := by
  refine ⟨loadSuccessModel gltf, rfl, rfl, rfl, rfl, ?_, ?_⟩
  · intro c hc mats hm mat hmat
    have hc2 : c ∈ gltf.meshes.map convertMaterialsMesh := hc
    rcases List.mem_map.mp hc2 with ⟨c0, _, hc0⟩
    subst hc0
    cases hm0 : c0.material with
    | none =>
      have hm' : c0.material = some mats := by
        rw [convertMaterialsMesh, hm0] at hm
        exact hm
      rw [hm0] at hm'
      exact Option.noConfusion hm'
    | some mats0 =>
      simp only [convertMaterialsMesh, hm0] at hm
      rw [Option.some_inj] at hm
      rw [hm.symm] at hmat
      rcases List.mem_map.mp hmat with ⟨m0, _, hmeq⟩
      by_cases hk : (m0.kind = MatKind.standard || m0.kind = MatKind.physical) = true
      · rw [if_pos hk] at hmeq
        subst hmeq
        rw [optimizeMaterial]
        simpa using hk
      · rw [if_neg hk] at hmeq
        subst hmeq
        left
        rfl
  · intro c hc hname
    have hname2 : (c.name ≠ "" && jsTrimStr c.name ≠ "") = true := by
      have hne : c.name ≠ "" := by
        intro he
        exact hname (by rw [he]; rfl)
      simp [hne, hname]
    have hmem2 : convertMaterialsMesh c ∈ (loadSuccessModel gltf).meshes :=
      List.mem_map.mpr ⟨c, hc, rfl⟩
    have hnodup2 : ((loadSuccessModel gltf).meshes.map MeshJS.uuid).Nodup := by
      have he : (loadSuccessModel gltf).meshes.map MeshJS.uuid = gltf.meshes.map MeshJS.uuid := by
        show (gltf.meshes.map convertMaterialsMesh).map MeshJS.uuid = gltf.meshes.map MeshJS.uuid
        rw [List.map_map]
        exact List.map_congr_left (fun c0 _ => convertMaterialsMesh_uuid c0)
      rw [he]
      exact hnodup
    have hcond : ((convertMaterialsMesh c).name ≠ "" &&
        jsTrimStr (convertMaterialsMesh c).name ≠ "") = true := by
      rw [convertMaterialsMesh_name]
      exact hname2
    have h := tagParts_fold_lookup (loadSuccessModel gltf).meshes st.partData hnodup2
      (convertMaterialsMesh c) hmem2 hcond
    rw [convertMaterialsMesh_uuid, convertMaterialsMesh_name] at h
    exact h

/-- C3 witness: the amended statement evaluated on a concrete model. -/
theorem loadSuccess_centers_scales_converts_tags_witness :
    ∃ m, (loadSuccess sampleModel emptyLoadState).1.satellite = some m ∧
      m.position = ⟨-sampleModel.bboxCenter.x, -sampleModel.bboxCenter.y,
        -sampleModel.bboxCenter.z⟩ ∧
      m.scale = ⟨40, 40, 40⟩ ∧
      m.meshes = sampleModel.meshes.map convertMaterialsMesh ∧
      (∀ c ∈ m.meshes, ∀ mats, c.material = some mats → ∀ mat ∈ mats,
        mat.kind = MatKind.standard ∨ mat.kind = MatKind.physical) ∧
      (∀ c ∈ sampleModel.meshes, jsTrimStr c.name ≠ "" →
        lookupAssoc (loadSuccess sampleModel emptyLoadState).1.partData c.uuid =
          some { name := formatPartName c.name,
                 description := "Part of the " ++ formatPartName c.name ++ " component." }) :=
  loadSuccess_centers_scales_converts_tags sampleModel emptyLoadState (by decide)

/-- C3 counterexample: the claim as stated fails on the repository's other
model-loading path and on blank names.  `load3dModel` (objects.js) adds the
loaded model unchanged: it is not recentered although its bounding-box
center is nonzero, its material stays a non-canonical kind, and no part
metadata exists.  Moreover, even on the satellite path a mesh whose name is
`" "` (non-empty but blank) is not tagged. -/
theorem load3dModel_counterexample :
    (load3dModelCallback sampleModel false false false).1 = sampleModel ∧
    sampleModel.position ≠ ⟨-sampleModel.bboxCenter.x, -sampleModel.bboxCenter.y,
      -sampleModel.bboxCenter.z⟩ ∧
    (∃ c ∈ sampleModel.meshes, ∃ mats, c.material = some mats ∧
      ∃ m ∈ mats, ¬(m.kind = MatKind.standard ∨ m.kind = MatKind.physical)) ∧
    blankNameMesh.name ≠ "" ∧
    lookupAssoc (loadSuccess blankNameModel emptyLoadState).1.partData blankNameMesh.uuid
      = none := by
  refine ⟨rfl, by decide, ?_, by decide, by decide⟩
  exact ⟨sampleMesh, List.mem_cons_self _ _, [sampleMaterial, sampleBasicMaterial], rfl,
    sampleBasicMaterial, List.mem_cons_of_mem _ (List.mem_cons_self _ _), by decide⟩

/-! ### The settings pipeline leaves the ambient light's intensity in place -/

theorem applyBackgroundType_ambient (ty : String) (st : UIState) :
    (applyBackgroundType ty st).ambientLight = st.ambientLight := by
  rw [applyBackgroundType]
  split <;> rfl

theorem applyEnvironmentType_ambient (ty : String) (st : UIState) :
    (applyEnvironmentType ty st).ambientLight = st.ambientLight := by
  rw [applyEnvironmentType]
  split <;> rfl

theorem setBackgroundType_ambient (s : SettingsJS) (st : UIState) :
    (setBackgroundType s st).ambientLight = st.ambientLight := by
  rw [setBackgroundType]
  cases truthyStr s.backgroundType with
  | none => rfl
  | some v => rw [applyBackgroundType_ambient]

theorem setBackgroundColor_ambient (s : SettingsJS) (st : UIState) :
    (setBackgroundColor s st).ambientLight = st.ambientLight := by
  rw [setBackgroundColor]
  cases truthyStr s.backgroundColor <;> rfl

theorem setBackgroundIntensity_ambient (s : SettingsJS) (st : UIState) :
    (setBackgroundIntensity s st).ambientLight = st.ambientLight := by
  rw [setBackgroundIntensity]
  cases s.backgroundIntensity <;> rfl

theorem setDirectionalIntensity_ambient (s : SettingsJS) (st : UIState) :
    (setDirectionalIntensity s st).ambientLight = st.ambientLight := by
  rw [setDirectionalIntensity]
  cases s.directionalIntensity <;> rfl

theorem setDirectionalColor_ambient (s : SettingsJS) (st : UIState) :
    (setDirectionalColor s st).ambientLight = st.ambientLight := by
  rw [setDirectionalColor]
  cases truthyStr s.directionalColor <;> rfl

theorem setDirectionalX_ambient (s : SettingsJS) (st : UIState) :
    (setDirectionalX s st).ambientLight = st.ambientLight := by
  rw [setDirectionalX]
  cases s.directionalX <;> rfl

theorem setDirectionalY_ambient (s : SettingsJS) (st : UIState) :
    (setDirectionalY s st).ambientLight = st.ambientLight := by
  rw [setDirectionalY]
  cases s.directionalY <;> rfl

theorem setDirectionalZ_ambient (s : SettingsJS) (st : UIState) :
    (setDirectionalZ s st).ambientLight = st.ambientLight := by
  rw [setDirectionalZ]
  cases s.directionalZ <;> rfl

theorem setFillIntensity_ambient (s : SettingsJS) (st : UIState) :
    (setFillIntensity s st).ambientLight = st.ambientLight := by
  rw [setFillIntensity]
  cases s.fillIntensity <;> rfl

theorem setFillColor_ambient (s : SettingsJS) (st : UIState) :
    (setFillColor s st).ambientLight = st.ambientLight := by
  rw [setFillColor]
  cases truthyStr s.fillColor <;> rfl

theorem setPointIntensity_ambient (s : SettingsJS) (st : UIState) :
    (setPointIntensity s st).ambientLight = st.ambientLight := by
  rw [setPointIntensity]
  cases s.pointIntensity <;> rfl

theorem setPointColor_ambient (s : SettingsJS) (st : UIState) :
    (setPointColor s st).ambientLight = st.ambientLight := by
  rw [setPointColor]
  cases truthyStr s.pointColor <;> rfl

theorem setEnvironmentType_ambient (s : SettingsJS) (st : UIState) :
    (setEnvironmentType s st).ambientLight = st.ambientLight := by
  rw [setEnvironmentType]
  cases truthyStr s.environmentType with
  | none => rw [applyEnvironmentType_ambient]
  | some v => rw [applyEnvironmentType_ambient]

theorem setEnvIntensity_ambient (s : SettingsJS) (st : UIState) :
    (setEnvIntensity s st).ambientLight = st.ambientLight := by
  rw [setEnvIntensity]
  cases s.envIntensity <;> rfl

theorem setLoadPanel_ambient (s : SettingsJS) (st : UIState) :
    (setLoadPanel s st).ambientLight = st.ambientLight := by
  rw [setLoadPanel]
  cases s.loadPanelCollapsed <;> rfl

theorem setLightingPanel_ambient (s : SettingsJS) (st : UIState) :
    (setLightingPanel s st).ambientLight = st.ambientLight := by
  rw [setLightingPanel]
  cases s.lightingPanelCollapsed <;> rfl

theorem setOutlinerPanel_ambient (s : SettingsJS) (st : UIState) :
    (setOutlinerPanel s st).ambientLight = st.ambientLight := by
  rw [setOutlinerPanel]
  cases s.outlinerPanelCollapsed <;> rfl

theorem setRightPanelFlag_ambient (s : SettingsJS) (st : UIState) :
    (setRightPanelFlag s st).ambientLight = st.ambientLight := by
  rw [setRightPanelFlag]
  rcases s.rightPanelCollapsed with _ | b
  · rfl
  · cases b <;> rfl

theorem applyBackgroundSettings_ambient (s : SettingsJS) (st : UIState) :
    (applyBackgroundSettings s st).ambientLight = st.ambientLight := by
  rw [applyBackgroundSettings, setBackgroundIntensity_ambient, setBackgroundColor_ambient,
    setBackgroundType_ambient]

theorem applyDirectionalSettings_ambient (s : SettingsJS) (st : UIState) :
    (applyDirectionalSettings s st).ambientLight = st.ambientLight := by
  rw [applyDirectionalSettings, setDirectionalZ_ambient, setDirectionalY_ambient,
    setDirectionalX_ambient, setDirectionalColor_ambient, setDirectionalIntensity_ambient]

theorem applyFillSettings_ambient (s : SettingsJS) (st : UIState) :
    (applyFillSettings s st).ambientLight = st.ambientLight := by
  rw [applyFillSettings, setFillColor_ambient, setFillIntensity_ambient]

theorem applyPointSettings_ambient (s : SettingsJS) (st : UIState) :
    (applyPointSettings s st).ambientLight = st.ambientLight := by
  rw [applyPointSettings, setPointColor_ambient, setPointIntensity_ambient]

theorem applyEnvironmentSettings_ambient (s : SettingsJS) (st : UIState) :
    (applyEnvironmentSettings s st).ambientLight = st.ambientLight := by
  rw [applyEnvironmentSettings, setEnvIntensity_ambient, setEnvironmentType_ambient]

theorem applyPanelSettings_ambient (s : SettingsJS) (st : UIState) :
    (applyPanelSettings s st).ambientLight = st.ambientLight := by
  rw [applyPanelSettings, setRightPanelFlag_ambient, setOutlinerPanel_ambient,
    setLightingPanel_ambient, setLoadPanel_ambient]

theorem applyAmbientSettings_intensity (s : SettingsJS) (st : UIState) (q : ℚ) (l : LightQ)
    (hin : s.ambientIntensity = some q) (hl : st.ambientLight = some l) :
    ∃ l', (applyAmbientSettings s st).ambientLight = some l' ∧ l'.intensity = q := by
  rw [applyAmbientSettings]
  have h1 : (setAmbientIntensity s st).ambientLight = some { l with intensity := q } := by
    rw [setAmbientIntensity, hin]
    simp only [onAmbientIntensityInput]
    simp [hl]
  rw [setAmbientColor]
  cases truthyStr s.ambientColor with
  | none => exact ⟨_, h1, rfl⟩
  | some v =>
    simp only [onAmbientColorInput]
    refine ⟨{ l with intensity := q, colorHex := jsSetHexArg v }, ?_, rfl⟩
    simp [h1]

/-- C5: applying a settings object whose `ambientIntensity` is `0.7` writes
the value into the ambient-intensity control and dispatches its input event,
whose listener assigns it to the ambient light; after `applySettings`
completes the ambient light's intensity reads `0.7`. -/
theorem applySettings_ambient_intensity (s : SettingsJS) (st : UIState) (l : LightQ)
    (hs : s.ambientIntensity = some (7 / 10 : ℚ)) (hl : st.ambientLight = some l) :
    ∃ l', (applySettings s st).ambientLight = some l' ∧ l'.intensity = 7 / 10 := by
  rw [applySettings]
  obtain ⟨l', h1, h2⟩ := applyAmbientSettings_intensity s (applyBackgroundSettings s st)
    (7 / 10) l hs (by rw [applyBackgroundSettings_ambient, hl])
  refine ⟨l', ?_, h2⟩
  rw [applyPanelSettings_ambient, applyEnvironmentSettings_ambient, applyPointSettings_ambient,
    applyFillSettings_ambient, applyDirectionalSettings_ambient, h1]

/-- C5 witness: the concrete settings document with `ambientIntensity: 0.7`
applied to the concrete viewer state. -/
theorem applySettings_ambient_intensity_witness :
    ∃ l', (applySettings sampleSettings sampleUIState).ambientLight = some l' ∧
      l'.intensity = 7 / 10 :=
  applySettings_ambient_intensity sampleSettings sampleUIState sampleLight rfl rfl

/-- C10: an `animate` iteration with rotation paused leaves the oscillation
state — `rotationTime`, the satellite's y-rotation, and the directional,
fill and point light positions — unchanged, while still updating the orbit
controls, updating the indicator position when one is shown, and rendering;
with rotation running, the satellite's y-rotation is
`sin(rotationTime / 80 · 2π) · π/4` for the advanced `rotationTime` and
therefore stays within [-45°, +45°] (i.e. [-π/4, π/4] radians).  `api` is
the browser `Math` object. -/
theorem animate_oscillation (api : MathAPI ℝ)
    (hapi : api = ⟨Real.sin, Real.cos, fun y x => Complex.arg ⟨x, y⟩, Real.sqrt, Real.pi⟩)
    (t : ℝ) (st : AnimState ℝ) :
    (st.isRotationPaused = true →
      (animateFrame api t st).1.rotationTime = st.rotationTime ∧
      (animateFrame api t st).1.satelliteRotY = st.satelliteRotY ∧
      (animateFrame api t st).1.directionalLightPos = st.directionalLightPos ∧
      (animateFrame api t st).1.fillLightPos = st.fillLightPos ∧
      (animateFrame api t st).1.pointLightPos = st.pointLightPos ∧
      (animateFrame api t st).2.controlsUpdated = true ∧
      (animateFrame api t st).2.rendered = true ∧
      (st.selectedObject = true → st.overlayHidden = false →
        (animateFrame api t st).2.indicatorUpdated = true)) ∧
    (st.isRotationPaused = false →
      (animateFrame api t st).1.satelliteRotY = st.satelliteRotY.map (fun _ =>
        Real.sin ((st.rotationTime + (t - st.lastFrameTime) / 1000) / 80 * (Real.pi * 2)) *
          (Real.pi / 4)) ∧
      ∀ y, (animateFrame api t st).1.satelliteRotY = some y →
        -(Real.pi / 4) ≤ y ∧ y ≤ Real.pi / 4) := by
  constructor
  · intro hp
    refine ⟨?_, ?_, ?_, ?_, ?_, rfl, rfl, ?_⟩ <;>
      simp [animateFrame, hp]
    intro h1 h2
    simp [h1, h2]
  · intro hp
    subst hapi
    constructor
    · simp [animateFrame, hp]
    · intro y hy
      simp [animateFrame, hp] at hy
      rcases hy with ⟨r0, _, hval⟩
      have hpi4 : (0 : ℝ) ≤ Real.pi / 4 := by positivity
      set A := (st.rotationTime + (t - st.lastFrameTime) / 1000) / 80 * (Real.pi * 2) with hA
      constructor
      · have := mul_le_mul_of_nonneg_right (Real.neg_one_le_sin A) hpi4
        rw [neg_one_mul] at this
        exact this
      · have := mul_le_mul_of_nonneg_right (Real.sin_le_one A) hpi4
        rw [one_mul] at this
        exact this

/-- C10 witness: a paused frame on a concrete state, and an oscillating frame
on a concrete state, through the real `Math` functions. -/
theorem animate_oscillation_witness :
    ((animateFrame ⟨Real.sin, Real.cos, fun y x => Complex.arg ⟨x, y⟩, Real.sqrt, Real.pi⟩
        (5 : ℝ)
        { isRotationPaused := true, rotationTime := 2, lastFrameTime := 1,
          satelliteRotY := some 0, directionalLightPos := some ⟨-5, 5, -5⟩,
          fillLightPos := some ⟨5, -3, 5⟩, pointLightPos := some ⟨0, 0, -10⟩,
          initialDirectional := some ⟨-5, 5, -5⟩, initialFill := some ⟨5, -3, 5⟩,
          initialPoint := some ⟨0, 0, -10⟩, selectedObject := true,
          overlayHidden := false }).1.rotationTime = 2) ∧
    (∀ y, (animateFrame ⟨Real.sin, Real.cos, fun y x => Complex.arg ⟨x, y⟩, Real.sqrt, Real.pi⟩
        (5 : ℝ)
        { isRotationPaused := false, rotationTime := 2, lastFrameTime := 1,
          satelliteRotY := some 0, directionalLightPos := none, fillLightPos := none,
          pointLightPos := none, initialDirectional := none, initialFill := none,
          initialPoint := none, selectedObject := false,
          overlayHidden := true }).1.satelliteRotY = some y →
      -(Real.pi / 4) ≤ y ∧ y ≤ Real.pi / 4) := by
  constructor
  · exact ((animate_oscillation _ rfl 5 _).1 rfl).1
  · exact ((animate_oscillation _ rfl 5 _).2 rfl).2

/-! ### Hex color round trip -/

theorem hexDigitVal_hexDigitChar : ∀ d, d < 16 → hexDigitVal (hexDigitChar d) = some d := by
  decide

theorem parseHexDigits_cons (c : Char) (cs : List Char) (acc d : Nat)
    (h : hexDigitVal c = some d) :
    parseHexDigits (c :: cs) acc = parseHexDigits cs (acc * 16 + d) := by
  rw [parseHexDigits, h]

theorem hexStr_ne_empty (n : Nat) : ("#" ++ toHexString6 n) ≠ "" := by
  intro h
  have : ("#" ++ toHexString6 n).data = ([] : List Char) := by rw [h]
  rw [toHexString6] at this
  exact absurd this (by simp)

theorem jsSetHexArg_roundtrip (n : Nat) (h : n < 16 ^ 6) :
    jsSetHexArg ("#" ++ toHexString6 n) = n := by
  have hd : ∀ k : Nat, hexDigitVal (hexDigitChar (n / 16 ^ k % 16)) = some (n / 16 ^ k % 16) :=
    fun k => hexDigitVal_hexDigitChar _ (Nat.mod_lt _ (by norm_num))
  have hdata : ("#" ++ toHexString6 n).data =
      '#' :: [hexDigitChar (n / 16 ^ 5 % 16), hexDigitChar (n / 16 ^ 4 % 16),
        hexDigitChar (n / 16 ^ 3 % 16), hexDigitChar (n / 16 ^ 2 % 16),
        hexDigitChar (n / 16 % 16), hexDigitChar (n % 16)] := by
    rw [toHexString6]
    rfl
  rw [jsSetHexArg, hdata, replaceFirstHash, if_pos rfl]
  have hnum : jsNumberHex ('0' :: 'x' :: [hexDigitChar (n / 16 ^ 5 % 16),
      hexDigitChar (n / 16 ^ 4 % 16), hexDigitChar (n / 16 ^ 3 % 16),
      hexDigitChar (n / 16 ^ 2 % 16), hexDigitChar (n / 16 % 16),
      hexDigitChar (n % 16)]) = parseHexDigits [hexDigitChar (n / 16 ^ 5 % 16),
      hexDigitChar (n / 16 ^ 4 % 16), hexDigitChar (n / 16 ^ 3 % 16),
      hexDigitChar (n / 16 ^ 2 % 16), hexDigitChar (n / 16 % 16),
      hexDigitChar (n % 16)] 0 := by
    rw [jsNumberHex]
    simp
  rw [hnum]
  have hd1 : hexDigitVal (hexDigitChar (n / 16 % 16)) = some (n / 16 % 16) := by
    have := hd 1
    rwa [pow_one] at this
  have hd0 : hexDigitVal (hexDigitChar (n % 16)) = some (n % 16) :=
    hexDigitVal_hexDigitChar _ (Nat.mod_lt _ (by norm_num))
  rw [parseHexDigits_cons _ _ _ _ (hd 5), parseHexDigits_cons _ _ _ _ (hd 4),
    parseHexDigits_cons _ _ _ _ (hd 3), parseHexDigits_cons _ _ _ _ (hd 2),
    parseHexDigits_cons _ _ _ _ hd1, parseHexDigits_cons _ _ _ _ hd0, parseHexDigits]
  rw [Option.getD_some]
  have e5 : (16 : Nat) ^ 5 = 1048576 := by norm_num
  have e4 : (16 : Nat) ^ 4 = 65536 := by norm_num
  have e3 : (16 : Nat) ^ 3 = 4096 := by norm_num
  have e2 : (16 : Nat) ^ 2 = 256 := by norm_num
  have e6 : (16 : Nat) ^ 6 = 16777216 := by norm_num
  rw [e5, e4, e3, e2] 
  rw [e6] at h
  omega

/-! ### Per-field facts about the material restore chain -/

theorem restoreColor_roughness (md : MaterialData) (m : MaterialJS) :
    (restoreColor md m).roughness = m.roughness := by
  rw [restoreColor]
  split <;> rfl

theorem restoreColor_metalness (md : MaterialData) (m : MaterialJS) :
    (restoreColor md m).metalness = m.metalness := by
  rw [restoreColor]
  split <;> rfl

theorem restoreColor_emissive (md : MaterialData) (m : MaterialJS) :
    (restoreColor md m).emissive = m.emissive := by
  rw [restoreColor]
  split <;> rfl

theorem restoreColor_emissiveIntensity (md : MaterialData) (m : MaterialJS) :
    (restoreColor md m).emissiveIntensity = m.emissiveIntensity := by
  rw [restoreColor]
  split <;> rfl

theorem restoreColor_opacity (md : MaterialData) (m : MaterialJS) :
    (restoreColor md m).opacity = m.opacity := by
  rw [restoreColor]
  split <;> rfl

theorem restoreRoughness_color (md : MaterialData) (m : MaterialJS) :
    (restoreRoughness md m).color = m.color := by
  rw [restoreRoughness]
  split <;> rfl

theorem restoreRoughness_metalness (md : MaterialData) (m : MaterialJS) :
    (restoreRoughness md m).metalness = m.metalness := by
  rw [restoreRoughness]
  split <;> rfl

theorem restoreRoughness_emissive (md : MaterialData) (m : MaterialJS) :
    (restoreRoughness md m).emissive = m.emissive := by
  rw [restoreRoughness]
  split <;> rfl

theorem restoreRoughness_emissiveIntensity (md : MaterialData) (m : MaterialJS) :
    (restoreRoughness md m).emissiveIntensity = m.emissiveIntensity := by
  rw [restoreRoughness]
  split <;> rfl

theorem restoreRoughness_opacity (md : MaterialData) (m : MaterialJS) :
    (restoreRoughness md m).opacity = m.opacity := by
  rw [restoreRoughness]
  split <;> rfl

theorem restoreMetalness_color (md : MaterialData) (m : MaterialJS) :
    (restoreMetalness md m).color = m.color := by
  rw [restoreMetalness]
  split <;> rfl

theorem restoreMetalness_roughness (md : MaterialData) (m : MaterialJS) :
    (restoreMetalness md m).roughness = m.roughness := by
  rw [restoreMetalness]
  split <;> rfl

theorem restoreMetalness_emissive (md : MaterialData) (m : MaterialJS) :
    (restoreMetalness md m).emissive = m.emissive := by
  rw [restoreMetalness]
  split <;> rfl

theorem restoreMetalness_emissiveIntensity (md : MaterialData) (m : MaterialJS) :
    (restoreMetalness md m).emissiveIntensity = m.emissiveIntensity := by
  rw [restoreMetalness]
  split <;> rfl

theorem restoreMetalness_opacity (md : MaterialData) (m : MaterialJS) :
    (restoreMetalness md m).opacity = m.opacity := by
  rw [restoreMetalness]
  split <;> rfl

theorem restoreEmissive_color (md : MaterialData) (m : MaterialJS) :
    (restoreEmissive md m).color = m.color := by
  rw [restoreEmissive]
  split
  · split <;> rfl
  · rfl

theorem restoreEmissive_roughness (md : MaterialData) (m : MaterialJS) :
    (restoreEmissive md m).roughness = m.roughness := by
  rw [restoreEmissive]
  split
  · split <;> rfl
  · rfl

theorem restoreEmissive_metalness (md : MaterialData) (m : MaterialJS) :
    (restoreEmissive md m).metalness = m.metalness := by
  rw [restoreEmissive]
  split
  · split <;> rfl
  · rfl

theorem restoreEmissive_emissiveIntensity (md : MaterialData) (m : MaterialJS) :
    (restoreEmissive md m).emissiveIntensity = m.emissiveIntensity := by
  rw [restoreEmissive]
  split
  · split <;> rfl
  · rfl

theorem restoreEmissive_opacity (md : MaterialData) (m : MaterialJS) :
    (restoreEmissive md m).opacity = m.opacity := by
  rw [restoreEmissive]
  split
  · split <;> rfl
  · rfl

theorem restoreEmissiveIntensity_color (md : MaterialData) (m : MaterialJS) :
    (restoreEmissiveIntensity md m).color = m.color := by
  rw [restoreEmissiveIntensity]
  split <;> rfl

theorem restoreEmissiveIntensity_roughness (md : MaterialData) (m : MaterialJS) :
    (restoreEmissiveIntensity md m).roughness = m.roughness := by
  rw [restoreEmissiveIntensity]
  split <;> rfl

theorem restoreEmissiveIntensity_metalness (md : MaterialData) (m : MaterialJS) :
    (restoreEmissiveIntensity md m).metalness = m.metalness := by
  rw [restoreEmissiveIntensity]
  split <;> rfl

theorem restoreEmissiveIntensity_emissive (md : MaterialData) (m : MaterialJS) :
    (restoreEmissiveIntensity md m).emissive = m.emissive := by
  rw [restoreEmissiveIntensity]
  split <;> rfl

theorem restoreEmissiveIntensity_opacity (md : MaterialData) (m : MaterialJS) :
    (restoreEmissiveIntensity md m).opacity = m.opacity := by
  rw [restoreEmissiveIntensity]
  split <;> rfl

theorem restoreOpacity_color (md : MaterialData) (m : MaterialJS) :
    (restoreOpacity md m).color = m.color := by
  rw [restoreOpacity]
  split <;> rfl

theorem restoreOpacity_roughness (md : MaterialData) (m : MaterialJS) :
    (restoreOpacity md m).roughness = m.roughness := by
  rw [restoreOpacity]
  split <;> rfl

theorem restoreOpacity_metalness (md : MaterialData) (m : MaterialJS) :
    (restoreOpacity md m).metalness = m.metalness := by
  rw [restoreOpacity]
  split <;> rfl

theorem restoreOpacity_emissive (md : MaterialData) (m : MaterialJS) :
    (restoreOpacity md m).emissive = m.emissive := by
  rw [restoreOpacity]
  split <;> rfl

theorem restoreOpacity_emissiveIntensity (md : MaterialData) (m : MaterialJS) :
    (restoreOpacity md m).emissiveIntensity = m.emissiveIntensity := by
  rw [restoreOpacity]
  split <;> rfl

theorem restoreEmissive_none (md : MaterialData) (m : MaterialJS)
    (hmd : md.emissive = none) : restoreEmissive md m = m := by
  rw [restoreEmissive, hmd]

theorem restoreEmissive_some (md : MaterialData) (m : MaterialJS) (es : String)
    (hmd : md.emissive = some es) (hne : es ≠ "") :
    restoreEmissive md m = { m with emissive := m.emissive.map (fun _ => jsSetHexArg es) } := by
  rw [restoreEmissive, hmd]
  show (if es ≠ "" then { m with emissive := m.emissive.map (fun _ => jsSetHexArg es) } else m)
    = { m with emissive := m.emissive.map (fun _ => jsSetHexArg es) }
  rw [if_pos hne]

theorem restoreEmissive_some_emissive (md : MaterialData) (m : MaterialJS) (es : String)
    (hmd : md.emissive = some es) (hne : es ≠ "") :
    (restoreEmissive md m).emissive = m.emissive.map (fun _ => jsSetHexArg es) := by
  rw [restoreEmissive_some md m es hmd hne]

theorem applyMaterialData_roundtrip (k : Nat) (m cm : MaterialJS)
    (hfe : matFieldsEq cm m) (hb : matBounded m) :
    matFieldsEq (applyMaterialData (serializeMaterial k m) cm) m := by
  obtain ⟨h1, h2, h3, h4, h5, h6⟩ := hfe
  obtain ⟨hcb, heb⟩ := hb
  refine ⟨?_, ?_, ?_, ?_, ?_, ?_⟩
  · rw [applyMaterialData, restoreOpacity_color, restoreEmissiveIntensity_color,
      restoreEmissive_color, restoreMetalness_color, restoreRoughness_color, restoreColor]
    rw [if_pos (by exact hexStr_ne_empty m.color)]
    exact jsSetHexArg_roundtrip m.color hcb
  · rw [applyMaterialData, restoreOpacity_roughness, restoreEmissiveIntensity_roughness,
      restoreEmissive_roughness, restoreMetalness_roughness, restoreRoughness,
      show (serializeMaterial k m).roughness = m.roughness from rfl]
    cases hr : m.roughness with
    | some r => rfl
    | none => rw [restoreColor_roughness, h2, hr]
  · rw [applyMaterialData, restoreOpacity_metalness, restoreEmissiveIntensity_metalness,
      restoreEmissive_metalness, restoreMetalness,
      show (serializeMaterial k m).metalness = m.metalness from rfl]
    cases hm : m.metalness with
    | some v => rfl
    | none => rw [restoreRoughness_metalness, restoreColor_metalness, h3, hm]
  · rw [applyMaterialData, restoreOpacity_emissive, restoreEmissiveIntensity_emissive]
    cases he : m.emissive with
    | none =>
      have hmd : (serializeMaterial k m).emissive = none := by
        rw [show (serializeMaterial k m).emissive
          = m.emissive.map (fun e => "#" ++ toHexString6 e) from rfl, he, Option.map_none']
      rw [restoreEmissive_none _ _ hmd]
      rw [restoreMetalness_emissive, restoreRoughness_emissive, restoreColor_emissive, h4, he]
    | some e =>
      have heb2 : e < 16 ^ 6 := by rw [he] at heb; exact heb
      have hmd : (serializeMaterial k m).emissive = some ("#" ++ toHexString6 e) := by
        rw [show (serializeMaterial k m).emissive
          = m.emissive.map (fun e => "#" ++ toHexString6 e) from rfl, he, Option.map_some']
      rw [restoreEmissive_some_emissive _ _ _ hmd (hexStr_ne_empty e)]
      rw [restoreMetalness_emissive, restoreRoughness_emissive, restoreColor_emissive, h4, he,
        Option.map_some', jsSetHexArg_roundtrip e heb2]
  · rw [applyMaterialData, restoreOpacity_emissiveIntensity, restoreEmissiveIntensity,
      show (serializeMaterial k m).emissiveIntensity = m.emissiveIntensity from rfl]
    cases hei : m.emissiveIntensity with
    | some v => rfl
    | none =>
      rw [restoreEmissive_emissiveIntensity, restoreMetalness_emissiveIntensity,
        restoreRoughness_emissiveIntensity, restoreColor_emissiveIntensity, h5, hei]
  · rw [applyMaterialData, restoreOpacity,
      show (serializeMaterial k m).opacity = m.opacity from rfl]
    cases ho : m.opacity with
    | some o => rfl
    | none =>
      rw [restoreEmissiveIntensity_opacity, restoreEmissive_opacity, restoreMetalness_opacity,
        restoreRoughness_opacity, restoreColor_opacity, h6, ho]

/-! ### Per-field facts about the object restore chain -/

theorem restorePosition_rotation (od : ObjectData) (c : MeshJS) :
    (restorePosition od c).rotation = c.rotation := by
  rw [restorePosition]
  split <;> rfl

theorem restorePosition_scale (od : ObjectData) (c : MeshJS) :
    (restorePosition od c).scale = c.scale := by
  rw [restorePosition]
  split <;> rfl

theorem restorePosition_visible (od : ObjectData) (c : MeshJS) :
    (restorePosition od c).visible = c.visible := by
  rw [restorePosition]
  split <;> rfl

theorem restorePosition_material (od : ObjectData) (c : MeshJS) :
    (restorePosition od c).material = c.material := by
  rw [restorePosition]
  split <;> rfl

theorem restoreRotation_position (od : ObjectData) (c : MeshJS) :
    (restoreRotation od c).position = c.position := by
  rw [restoreRotation]
  split <;> rfl

theorem restoreRotation_scale (od : ObjectData) (c : MeshJS) :
    (restoreRotation od c).scale = c.scale := by
  rw [restoreRotation]
  split <;> rfl

theorem restoreRotation_visible (od : ObjectData) (c : MeshJS) :
    (restoreRotation od c).visible = c.visible := by
  rw [restoreRotation]
  split <;> rfl

theorem restoreRotation_material (od : ObjectData) (c : MeshJS) :
    (restoreRotation od c).material = c.material := by
  rw [restoreRotation]
  split <;> rfl

theorem restoreScale_position (od : ObjectData) (c : MeshJS) :
    (restoreScale od c).position = c.position := by
  rw [restoreScale]
  split <;> rfl

theorem restoreScale_rotation (od : ObjectData) (c : MeshJS) :
    (restoreScale od c).rotation = c.rotation := by
  rw [restoreScale]
  split <;> rfl

theorem restoreScale_visible (od : ObjectData) (c : MeshJS) :
    (restoreScale od c).visible = c.visible := by
  rw [restoreScale]
  split <;> rfl

theorem restoreScale_material (od : ObjectData) (c : MeshJS) :
    (restoreScale od c).material = c.material := by
  rw [restoreScale]
  split <;> rfl

theorem restoreVisible_position (od : ObjectData) (c : MeshJS) :
    (restoreVisible od c).position = c.position := by
  rw [restoreVisible]
  split <;> rfl

theorem restoreVisible_rotation (od : ObjectData) (c : MeshJS) :
    (restoreVisible od c).rotation = c.rotation := by
  rw [restoreVisible]
  split <;> rfl

theorem restoreVisible_scale (od : ObjectData) (c : MeshJS) :
    (restoreVisible od c).scale = c.scale := by
  rw [restoreVisible]
  split <;> rfl

theorem restoreVisible_material (od : ObjectData) (c : MeshJS) :
    (restoreVisible od c).material = c.material := by
  rw [restoreVisible]
  split <;> rfl

theorem restoreMaterials_position (od : ObjectData) (c : MeshJS) :
    (restoreMaterials od c).position = c.position := by
  rw [restoreMaterials]
  split <;> rfl

theorem restoreMaterials_rotation (od : ObjectData) (c : MeshJS) :
    (restoreMaterials od c).rotation = c.rotation := by
  rw [restoreMaterials]
  split <;> rfl

theorem restoreMaterials_scale (od : ObjectData) (c : MeshJS) :
    (restoreMaterials od c).scale = c.scale := by
  rw [restoreMaterials]
  split <;> rfl

theorem restoreMaterials_visible (od : ObjectData) (c : MeshJS) :
    (restoreMaterials od c).visible = c.visible := by
  rw [restoreMaterials]
  split <;> rfl

/-! ### Round trip of one object -/

theorem applyMaterialList_nil (cm : List MaterialJS) : applyMaterialList [] cm = cm :=
  rfl

theorem applyMaterialList_cons (md : MaterialData) (rest : List MaterialData)
    (cm : List MaterialJS) :
    applyMaterialList (md :: rest) cm = applyMaterialList rest
      (match cm[md.index]? with
       | some mat => cm.set md.index (applyMaterialData md mat)
       | none => cm) := by
  rw [applyMaterialList, applyMaterialList, List.foldl_cons]

theorem matFieldsEq_refl (m : MaterialJS) : matFieldsEq m m :=
  ⟨rfl, rfl, rfl, rfl, rfl, rfl⟩

theorem applyMaterialList_inv (mm : List MaterialJS) (hbnd : ∀ m ∈ mm, matBounded m) :
    ∀ (mds : List MaterialData),
      (∀ md ∈ mds, ∃ j, ∃ hj : j < mm.length, md = serializeMaterial j (mm[j])) →
      ∀ (cm : List MaterialJS), cm.length = mm.length →
      (∀ i (h : i < cm.length) (h' : i < mm.length), matFieldsEq cm[i] mm[i]) →
      (applyMaterialList mds cm).length = mm.length ∧
      ∀ i (h : i < (applyMaterialList mds cm).length) (h' : i < mm.length),
        matFieldsEq ((applyMaterialList mds cm)[i]) (mm[i]) := by
  intro mds
  induction mds with
  | nil =>
    intro _ cm hlen hinv
    rw [applyMaterialList_nil]
    exact ⟨hlen, hinv⟩
  | cons md rest ih =>
    intro hmem cm hlen hinv
    obtain ⟨j, hj, hmd⟩ := hmem md (List.mem_cons_self md rest)
    have hidx : md.index = j := by rw [hmd]; rfl
    have hjc : j < cm.length := by omega
    rw [applyMaterialList_cons, hidx, List.getElem?_eq_getElem hjc]
    have hnewlen : (cm.set j (applyMaterialData md cm[j])).length = mm.length := by
      rw [List.length_set]
      exact hlen
    refine ih (fun md2 hm2 => hmem md2 (List.mem_cons_of_mem md hm2)) _ hnewlen ?_
    intro i h h'
    rw [List.getElem_set]
    by_cases hij : j = i
    · rw [if_pos hij]
      subst hij
      rw [hmd]
      exact applyMaterialData_roundtrip j (mm[j]) (cm[j]) (hinv j hjc hj)
        (hbnd (mm[j]) (List.getElem_mem hj))
    · rw [if_neg hij]
      exact hinv i (by omega) h'

theorem mem_serializeMaterials (mm : List MaterialJS) (md : MaterialData)
    (h : md ∈ mm.enum.map (fun p => serializeMaterial p.1 p.2)) :
    ∃ j, ∃ hj : j < mm.length, md = serializeMaterial j (mm[j]) := by
  rcases List.mem_map.mp h with ⟨p, hp, hmd⟩
  rcases p with ⟨a, x⟩
  obtain ⟨_, hlt, hx⟩ := List.mem_enumFrom hp
  refine ⟨a, by simpa using hlt, ?_⟩
  rw [hmd.symm]
  simp at hx
  rw [hx]

theorem meshFieldsEq_refl (c : MeshJS) : meshFieldsEq c c := by
  refine ⟨rfl, rfl, rfl, rfl, ?_⟩
  cases c.material with
  | none => exact trivial
  | some mats => exact ⟨rfl, fun i h h' => matFieldsEq_refl _⟩

theorem restoreMaterials_matnone (od : ObjectData) (c : MeshJS)
    (hc : c.material = none) : (restoreMaterials od c).material = none := by
  rw [restoreMaterials, hc]
  exact hc

theorem restoreMaterials_matsome (od : ObjectData) (c : MeshJS) (mats : List MaterialJS)
    (hc : c.material = some mats) :
    (restoreMaterials od c).material = some (applyMaterialList od.materials mats) := by
  rw [restoreMaterials, hc]

theorem applyObjectData_roundtrip (mj c : MeshJS)
    (hfe : meshFieldsEq c mj)
    (hbnd : ∀ mats, mj.material = some mats → ∀ m ∈ mats, matBounded m) :
    meshFieldsEq (applyObjectData (serializeObject mj) c) mj := by
  obtain ⟨h1, h2, h3, h4, h5⟩ := hfe
  have hXm : (restoreVisible (serializeObject mj) (restoreScale (serializeObject mj)
      (restoreRotation (serializeObject mj) (restorePosition (serializeObject mj)
        c)))).material = c.material := by
    rw [restoreVisible_material, restoreScale_material, restoreRotation_material,
      restorePosition_material]
  refine ⟨?_, ?_, ?_, ?_, ?_⟩
  · rw [applyObjectData, restoreMaterials_position, restoreVisible_position,
      restoreScale_position, restoreRotation_position, restorePosition,
      show (serializeObject mj).position = some mj.position from rfl]
  · rw [applyObjectData, restoreMaterials_rotation, restoreVisible_rotation,
      restoreScale_rotation, restoreRotation,
      show (serializeObject mj).rotation = some mj.rotation from rfl]
  · rw [applyObjectData, restoreMaterials_scale, restoreVisible_scale, restoreScale,
      show (serializeObject mj).scale = some mj.scale from rfl]
  · rw [applyObjectData, restoreMaterials_visible, restoreVisible,
      show (serializeObject mj).visible = some mj.visible from rfl]
  · rw [applyObjectData]
    cases hcm : c.material with
    | none =>
      rw [hcm] at h5
      rw [restoreMaterials_matnone _ _ (by rw [hXm, hcm])]
      cases hmm : mj.material with
      | none => exact trivial
      | some mms =>
        rw [hmm] at h5
        exact h5.elim
    | some cms =>
      rw [hcm] at h5
      rw [restoreMaterials_matsome _ _ cms (by rw [hXm, hcm])]
      cases hmm : mj.material with
      | none =>
        rw [hmm] at h5
        exact h5.elim
      | some mms =>
        rw [hmm] at h5
        show matsOptEq (some (applyMaterialList (serializeObject mj).materials cms)) (some mms)
        have hmds : (serializeObject mj).materials = mms.enum.map
            (fun p => serializeMaterial p.1 p.2) := by
          rw [serializeObject, hmm]
        rw [hmds]
        have hr := applyMaterialList_inv mms (hbnd mms hmm)
          (mms.enum.map (fun p => serializeMaterial p.1 p.2))
          (fun md hmd => mem_serializeMaterials mms md hmd) cms h5.1 h5.2
        exact ⟨hr.1, hr.2⟩

/-! ### The object-map lookup -/

theorem lastIdxWithUuid_spec :
    ∀ (l : List MeshJS) (u : String) (i : Nat), lastIdxWithUuid l u = some i →
      ∃ hi : i < l.length, (l[i]).uuid = u := by
  intro l
  induction l with
  | nil => intro u i h; exact absurd h (by rw [lastIdxWithUuid]; simp)
  | cons c rest ih =>
    intro u i h
    rw [lastIdxWithUuid] at h
    cases hr : lastIdxWithUuid rest u with
    | some i' =>
      rw [hr] at h
      simp only [Option.some.injEq] at h
      obtain ⟨hi', hu⟩ := ih u i' hr
      subst h
      exact ⟨by simpa using Nat.succ_lt_succ hi', by simpa using hu⟩
    | none =>
      rw [hr] at h
      by_cases hc : c.uuid = u
      · rw [if_pos hc] at h
        simp only [Option.some.injEq] at h
        subst h
        exact ⟨by simp, hc⟩
      · rw [if_neg hc] at h
        exact absurd h (by simp)

theorem lastIdxWithUuid_isSome :
    ∀ (l : List MeshJS) (u : String) (j : Nat) (hj : j < l.length), (l[j]).uuid = u →
      (lastIdxWithUuid l u).isSome := by
  intro l
  induction l with
  | nil => intro u j hj; exact absurd hj (by simp)
  | cons c rest ih =>
    intro u j hj hu
    rw [lastIdxWithUuid]
    cases hr : lastIdxWithUuid rest u with
    | some i' => simp
    | none =>
      cases j with
      | zero =>
        rw [if_pos (by simpa using hu)]
        simp
      | succ j' =>
        have := ih u j' (by simpa using Nat.lt_of_succ_lt_succ hj) (by simpa using hu)
        rw [hr] at this
        exact absurd this (by simp)

/-! ### The settings-snapshot round trip -/

theorem deserialize_fold_inv (model : ModelJS)
    (hnodup : (model.meshes.map MeshJS.uuid).Nodup)
    (hbnd : ∀ c ∈ model.meshes, ∀ mats, c.material = some mats → ∀ m ∈ mats, matBounded m) :
    ∀ (ods : List ObjectData),
      (∀ od ∈ ods, ∃ j, ∃ hj : j < model.meshes.length,
        od = serializeObject (model.meshes[j]) ∧ (model.meshes[j]).material.isSome = true) →
      ∀ (acc : List MeshJS), acc.length = model.meshes.length →
      (∀ i (h : i < acc.length) (h' : i < model.meshes.length),
        meshFieldsEq acc[i] (model.meshes[i])) →
      (ods.foldl (deserializeObjectsStep model) acc).length = model.meshes.length ∧
      ∀ i (h : i < (ods.foldl (deserializeObjectsStep model) acc).length)
        (h' : i < model.meshes.length),
        meshFieldsEq ((ods.foldl (deserializeObjectsStep model) acc)[i]) (model.meshes[i]) := by
  intro ods
  induction ods with
  | nil =>
    intro _ acc hlen hinv
    rw [List.foldl_nil]
    exact ⟨hlen, hinv⟩
  | cons od rest ih =>
    intro hmem acc hlen hinv
    obtain ⟨j, hj, hod, hsome⟩ := hmem od (List.mem_cons_self od rest)
    rw [List.foldl_cons]
    have huuid : od.uuid = (model.meshes[j]).uuid := by rw [hod]; rfl
    have hsome2 := lastIdxWithUuid_isSome model.meshes od.uuid j hj huuid.symm
    obtain ⟨i, hi⟩ := Option.isSome_iff_exists.mp hsome2
    obtain ⟨hilt, hiu⟩ := lastIdxWithUuid_spec model.meshes od.uuid i hi
    have hij : i = j := by
      have hilt2 : i < (model.meshes.map MeshJS.uuid).length := by simpa using hilt
      have hjlt2 : j < (model.meshes.map MeshJS.uuid).length := by simpa using hj
      have h1 : (model.meshes.map MeshJS.uuid)[i] = (model.meshes.map MeshJS.uuid)[j] := by
        rw [List.getElem_map, List.getElem_map, hiu, huuid]
      exact hnodup.getElem_inj_iff.mp h1
    subst hij
    have hic : i < acc.length := by omega
    have hmatsome : (acc[i]).material.isSome = true := by
      have h5 := (hinv i hic hj).2.2.2.2
      cases hcm : (acc[i]).material with
      | none =>
        rw [hcm] at h5
        obtain ⟨mm, hmm⟩ := Option.isSome_iff_exists.mp hsome
        rw [hmm] at h5
        exact h5.elim
      | some cms => rfl
    have hstep : deserializeObjectsStep model acc od
        = acc.set i (applyObjectData od acc[i]) := by
      rw [deserializeObjectsStep, hi]
      show (match acc[i]? with
        | some c => if c.material.isSome = true then acc.set i (applyObjectData od c) else acc
        | none => acc) = acc.set i (applyObjectData od acc[i])
      rw [List.getElem?_eq_getElem hic]
      show (if (acc[i]).material.isSome = true then acc.set i (applyObjectData od acc[i])
        else acc) = acc.set i (applyObjectData od acc[i])
      rw [if_pos hmatsome]
    rw [hstep]
    have hnewlen : (acc.set i (applyObjectData od acc[i])).length = model.meshes.length := by
      rw [List.length_set]
      exact hlen
    refine ih (fun od2 hm2 => hmem od2 (List.mem_cons_of_mem od hm2)) _ hnewlen ?_
    intro i2 h2 h2'
    rw [List.getElem_set]
    by_cases hii : i = i2
    · rw [if_pos hii]
      subst hii
      rw [hod]
      exact applyObjectData_roundtrip (model.meshes[i]) (acc[i]) (hinv i hic hj)
        (fun mats hm m hmmem => hbnd (model.meshes[i]) (List.getElem_mem hj) mats hm m hmmem)
    · rw [if_neg hii]
      exact hinv i2 (by omega) h2'

theorem mem_serializeObjects (model : ModelJS) (od : ObjectData)
    (h : od ∈ model.meshes.filterMap (fun c =>
      if c.material.isSome then some (serializeObject c) else none)) :
    ∃ j, ∃ hj : j < model.meshes.length,
      od = serializeObject (model.meshes[j]) ∧ (model.meshes[j]).material.isSome = true := by
  rcases List.mem_filterMap.mp h with ⟨c, hc, heq⟩
  obtain ⟨j, hj, hcj⟩ := List.mem_iff_getElem.mp hc
  by_cases hs : c.material.isSome = true
  · rw [if_pos hs] at heq
    simp only [Option.some.injEq] at heq
    exact ⟨j, hj, by rw [hcj, heq.symm], by rw [hcj]; exact hs⟩
  · rw [if_neg hs] at heq
    exact absurd heq (by simp)

/-- C1: applying `deserializeSceneData` to the output of `serializeSceneData`
on an unchanged loaded model restores every mesh to its serialized state:
position, rotation, scale and visibility, and each material's color,
roughness, metalness, emissive color, emissive intensity and opacity all
equal their serialized values.  The hypotheses hold for every model the
library produces: mesh uuids are library-generated and unique, and colors
are 24-bit. -/
theorem serializeDeserialize_restores (model : ModelJS) (pd pd2 : List (String × PartInfo))
    (sd : SceneData) (model' : ModelJS)
    (hnodup : (model.meshes.map MeshJS.uuid).Nodup)
    (hbnd : ∀ c ∈ model.meshes, ∀ mats, c.material = some mats → ∀ m ∈ mats, matBounded m)
    (hser : serializeSceneData pd (some model) = some sd)
    (hdes : (deserializeSceneData sd pd2 (some model)).2 = some model') :
    model'.meshes.length = model.meshes.length ∧
    ∀ i (h : i < model'.meshes.length) (h' : i < model.meshes.length),
      meshFieldsEq (model'.meshes[i]) (model.meshes[i]) := by
  rw [serializeSceneData] at hser
  simp only [Option.some.injEq] at hser
  rw [deserializeSceneData] at hdes
  simp only [Option.some.injEq] at hdes
  have hm : model'.meshes = sd.objects.foldl (deserializeObjectsStep model) model.meshes := by
    rw [hdes.symm]
  have hobj : sd.objects = model.meshes.filterMap (fun c =>
      if c.material.isSome then some (serializeObject c) else none) := by
    rw [hser.symm]
  rw [hm, hobj]
  exact deserialize_fold_inv model hnodup hbnd _
    (fun od hod => mem_serializeObjects model od hod) model.meshes rfl
    (fun i h h' => meshFieldsEq_refl _)

/-- C1 witness: the round trip evaluated on the concrete sample model. -/
theorem serializeDeserialize_restores_witness :
    ∃ model',
      (deserializeSceneData
        { objects := sampleModel.meshes.filterMap (fun c =>
            if c.material.isSome then some (serializeObject c) else none),
          partData := [] } [] (some sampleModel)).2 = some model' ∧
      model'.meshes.length = sampleModel.meshes.length ∧
      ∀ i (h : i < model'.meshes.length) (h' : i < sampleModel.meshes.length),
        meshFieldsEq (model'.meshes[i]) (sampleModel.meshes[i]) := by
  have hbnd : ∀ c ∈ sampleModel.meshes, ∀ mats, c.material = some mats →
      ∀ m ∈ mats, matBounded m := by
    intro c hc mats hm m hmm
    have hc2 : c ∈ [sampleMesh] := hc
    rcases List.mem_cons.mp hc2 with h | h
    · subst h
      have hm2 : [sampleMaterial, sampleBasicMaterial] = mats := Option.some_inj.mp hm
      rw [hm2.symm] at hmm
      rcases List.mem_cons.mp hmm with h2 | h2
      · rw [h2]; exact ⟨by norm_num [sampleMaterial], by norm_num [sampleMaterial]⟩
      · rcases List.mem_cons.mp h2 with h3 | h3
        · rw [h3]
          exact ⟨by norm_num [sampleBasicMaterial], by norm_num [sampleBasicMaterial]⟩
        · exact absurd h3 (List.not_mem_nil m)
    · exact absurd h (List.not_mem_nil c)
  rcases hd : (deserializeSceneData
      { objects := sampleModel.meshes.filterMap (fun c =>
          if c.material.isSome then some (serializeObject c) else none),
        partData := [] } [] (some sampleModel)).2 with _ | m'
  · exact absurd hd (by decide)
  · have h := serializeDeserialize_restores sampleModel [] []
      { objects := sampleModel.meshes.filterMap (fun c =>
          if c.material.isSome then some (serializeObject c) else none),
        partData := [] } m' (by decide) hbnd rfl hd
    exact ⟨m', rfl, h.1, h.2⟩

end SatViewer
